import Mathlib

/-! # API gateway: routing, façade handlers and proxy pipeline

A shallow embedding of `gateway/main.go`.

* Strings are Lean strings; the `strings` helpers used by the gateway are
  written over their character lists so that they evaluate on literals.
* A decoded JSON value (`interface{}` after `encoding/json`) is a `JVal`;
  Go's `nil` interface is `JVal.null`. A message body carries both its raw
  text and the JSON value `json.Decoder` reads from it.
* A handler is a function `Request → Fx → Fx`, where `Fx` carries the
  response writer, the outbound calls attempted so far, the log records
  emitted so far and whether the handler has panicked.
* `Gateway.client` stands for `http.NewRequest` followed by `client.Do`:
  it tells, for each outbound request, whether the request could be built,
  whether the round trip failed, or which response came back.
* `fmt.Sprintf("%v", v)` is a parameter `sprintV` of the handlers that
  use it.
* Not modelled: wall-clock time (timestamps, durations, the 30 s timeout),
  the `log.Printf` diagnostics, and the byte encoding of JSON output.
-/

set_option autoImplicit false

namespace Gw

/-! ## Go `strings` helpers -/

/-- Go `strings.HasPrefix(s, pre)`. -/
def HasPrefix (s pre : String) : Bool :=
  pre.data.isPrefixOf s.data

/-- Go `strings.TrimPrefix(s, pre)`: `s` without the leading `pre` when it
has it, `s` itself otherwise. -/
def TrimPrefix (s pre : String) : String :=
  if HasPrefix s pre then String.mk (s.data.drop pre.data.length) else s

/-- Whether `sub` occurs in `cs` at some position. -/
def containsChars (sub : List Char) : List Char → Bool
  | [] => sub.isEmpty
  | c :: cs => sub.isPrefixOf (c :: cs) || containsChars sub cs

/-- Go `strings.Contains(s, sub)`. -/
def Contains (s sub : String) : Bool :=
  containsChars sub.data s.data

/-- The pieces of `cs` between occurrences of the character `sep`. -/
def splitChars (sep : Char) : List Char → List (List Char)
  | [] => [[]]
  | c :: cs =>
    if c = sep then [] :: splitChars sep cs
    else
      match splitChars sep cs with
      | [] => [[c]]
      | p :: ps => (c :: p) :: ps

/-- Go `strings.Split(s, sep)` for a one-character separator (the gateway
only ever splits on "/"). -/
def Split (s : String) (sep : Char) : List String :=
  (splitChars sep s.data).map String.mk

/-! ## Decoded JSON and Go maps -/

/-- A value produced by `encoding/json` when decoding into `interface{}`.
A `float64` is carried as its text. `null` is Go's `nil`. -/
inductive JVal where
  | null
  | bool (b : Bool)
  | num (text : String)
  | str (s : String)
  | arr (xs : List JVal)
  | obj (kvs : List (String × JVal))

/-- The entries of a non-nil `map[string]interface{}`; the first entry for
a key is the map's value for it. -/
abbrev Entries := List (String × JVal)

/-- Lookup in the entries of a map. -/
def Entries.get (k : String) : Entries → Option JVal
  | [] => none
  | (k', v) :: rest => if k' = k then some v else Entries.get k rest

/-- Assignment `m[k] = v` on the entries of a map. -/
def Entries.set (k : String) (v : JVal) : Entries → Entries
  | [] => [(k, v)]
  | (k', v') :: rest =>
    if k' = k then (k, v) :: rest else (k', v') :: Entries.set k v rest

/-- A Go `map[string]interface{}` variable: `none` is the nil map. -/
abbrev GoMap := Option Entries

/-- Go map indexing `m[k]`: the zero value `nil` for a missing key and for
the nil map. -/
def GoMap.index (m : GoMap) (k : String) : JVal :=
  match m with
  | none => JVal.null
  | some es => (Entries.get k es).getD JVal.null

/-- The JSON that `encoding/json` writes for a map variable: `null` for the
nil map. -/
def GoMap.toJSON : GoMap → JVal
  | none => JVal.null
  | some es => JVal.obj es

/-- The comma-ok type assertion `v.(string)`. -/
def assertString : JVal → String × Bool
  | JVal.str s => (s, true)
  | _ => ("", false)

/-- The comma-ok type assertion `v.([]interface{})`. -/
def assertSlice : JVal → List JVal × Bool
  | JVal.arr xs => (xs, true)
  | _ => ([], false)

/-- The comma-ok type assertion `v.(map[string]interface{})`. -/
def assertMap : JVal → GoMap × Bool
  | JVal.obj es => (some es, true)
  | _ => (none, false)

/-- A message body: its bytes as text, and the first JSON value that
`json.Decoder` reads from it (`none` when it reads none: empty body or a
syntax error). -/
structure Payload where
  raw : String
  json : Option JVal

/-- Outcome of `json.NewDecoder(body).Decode(&m)` for a nil
`m : map[string]interface{}`: `none` is a returned error, `some m` the map
after a successful decode (`null` leaves the map nil). -/
def decodeMap (p : Payload) : Option GoMap :=
  match p.json with
  | none => none
  | some JVal.null => some none
  | some (JVal.obj es) => some (some es)
  | some _ => none

/-- The map variable after `Decode(&m)` when the error is discarded: it
stays nil unless the body is a JSON object. -/
def decodeMapLax (p : Payload) : GoMap :=
  match decodeMap p with
  | none => none
  | some m => m

/-- The `interface{}` variable after `Decode(&v)` when the error is
discarded. -/
def decodeAnyLax (p : Payload) : JVal :=
  match p.json with
  | none => JVal.null
  | some v => v

/-! ## Response envelope -/

/-- Go `ErrorInfo`. `details` is `null` when the field is nil (and then
omitted from the JSON). -/
structure ErrorInfo where
  code : String
  message : String
  details : JVal := JVal.null

/-- Go `ResponseEnvelope`: `data` is the JSON written for the `Data` field,
`error` is `none` for a nil pointer. -/
structure ResponseEnvelope where
  data : JVal
  error : Option ErrorInfo

/-! ## Cart item validation -/

/-- Go `validateCartItemRequest`; `none` is the nil `*ErrorInfo`. -/
def validateCartItemRequest (body : GoMap) : Option ErrorInfo :=
  let (source, ok) := assertString (body.index "source")
  if !ok || (source != "shopify" && source != "external") then
    some { code := "VALIDATION_ERROR",
           message := "source must be 'shopify' or 'external'" }
  else if source == "external" then
    if !(assertString (body.index "externalId")).2 then
      some { code := "VALIDATION_ERROR",
             message := "externalId is required for external items" }
    else none
  else
    if !(assertString (body.index "variantId")).2 then
      some { code := "VALIDATION_ERROR",
             message := "variantId is required for shopify items" }
    else none

/-! ## HTTP model -/

/-- Go `validHeaderFieldByte`: the token characters of RFC 7230. -/
def validHeaderFieldByte (c : Char) : Bool :=
  c.isAlphanum || "!#$%&'*+-.^_`|~".data.contains c

/-- The letter-case pass of Go `canonicalMIMEHeaderKey`: upper case at the
start and after a hyphen, lower case elsewhere. -/
def canonicalChars : Bool → List Char → List Char
  | _, [] => []
  | upper, c :: cs =>
    let c' :=
      if upper && c.isLower then c.toUpper
      else if !upper && c.isUpper then c.toLower
      else c
    c' :: canonicalChars (c' == '-') cs

/-- Go `textproto.CanonicalMIMEHeaderKey`: a key with a byte that is not a
token character is returned unchanged. -/
def CanonicalMIMEHeaderKey (s : String) : String :=
  if s.data.all validHeaderFieldByte then String.mk (canonicalChars true s.data)
  else s

/-- A Go `map[string][]string` (`http.Header`, `url.Values`), as entries. -/
abbrev MultiMap := List (String × List String)

/-- The values stored under `k` (none for a missing key). -/
def MultiMap.values (k : String) : MultiMap → List String
  | [] => []
  | (k', vs) :: rest => if k' = k then vs else MultiMap.values k rest

/-- Assignment `m[k] = vs`. -/
def MultiMap.put (k : String) (vs : List String) : MultiMap → MultiMap
  | [] => [(k, vs)]
  | (k', vs') :: rest =>
    if k' = k then (k, vs) :: rest else (k', vs') :: MultiMap.put k vs rest

/-- Go `delete(m, k)`. -/
def MultiMap.delete (k : String) (m : MultiMap) : MultiMap :=
  m.filter (fun e => e.1 != k)

/-- Go `url.Values.Get`: the first value under the key, or "". -/
def MultiMap.Get (m : MultiMap) (k : String) : String :=
  (MultiMap.values k m).headD ""

/-- Go `http.Header`; the server stores inbound keys in canonical form. -/
abbrev Header := MultiMap

/-- Go `Header.Get`. -/
def Header.Get (h : Header) (key : String) : String :=
  MultiMap.Get h (CanonicalMIMEHeaderKey key)

/-- Go `Header.Set`. -/
def Header.Set (h : Header) (key value : String) : Header :=
  MultiMap.put (CanonicalMIMEHeaderKey key) [value] h

/-- Go `Header.Add`. -/
def Header.Add (h : Header) (key value : String) : Header :=
  let k := CanonicalMIMEHeaderKey key
  MultiMap.put k (MultiMap.values k h ++ [value]) h

/-- Go `Header.Del`. -/
def Header.Del (h : Header) (key : String) : Header :=
  MultiMap.delete (CanonicalMIMEHeaderKey key) h

/-- The parts of an inbound `*http.Request` the gateway reads. `query` is
`r.URL.Query()`, the parsed form of `rawQuery`. -/
structure Request where
  method : String
  path : String
  rawQuery : String
  query : MultiMap
  header : Header
  body : Payload
  remoteAddr : String

/-- Body of an outbound request: none (`nil`), the `json.Marshal` of a
value, or the inbound body passed on as a stream. -/
inductive OutBody where
  | empty
  | json (v : JVal)
  | stream (p : Payload)

/-- An outbound request as built by `http.NewRequest` plus header edits. -/
structure OutReq where
  method : String
  url : String
  header : Header
  body : OutBody

/-- A backend `*http.Response`; the client only yields three-digit status
codes. -/
structure BackendResp where
  statusCode : Fin 1000
  header : Header
  body : Payload

/-- What `http.NewRequest` followed by `g.client.Do` yields for a request:
`noRequest` when `http.NewRequest` returns an error (no request value is
built), `transportError` when `Do` returns an error, else the response. -/
inductive DoResult where
  | noRequest (err : String)
  | transportError (err : String)
  | response (resp : BackendResp)

/-- Go `Gateway`: the four backend base URLs, the API key and the client. -/
structure Gateway where
  postgrestURL : String
  backendAPIURL : String
  mcpServiceURL : String
  workerServiceURL : String
  apiKey : String
  client : OutReq → DoResult

/-- One `Write` to the response body. -/
inductive Chunk where
  | envelope (e : ResponseEnvelope)
  | json (v : JVal)
  | text (s : String)
  | stream (p : Payload)

/-- State of an `http.ResponseWriter`: header map, status line once
written, body chunks in order. -/
structure ResponseWriter where
  header : Header
  status : Option Nat
  body : List Chunk

/-- Go `LogEntry`, without the wall-clock fields (timestamp, duration) and
the encoded response size. -/
structure LogEntry where
  method : String
  path : String
  status : Nat
  ip : String
  userAgent : String
  requestSize : Nat

/-- Effects of handling one request: the response writer, the outbound
calls attempted (in order), the log records emitted, and whether the
handler panicked (the server then aborts the response). -/
structure Fx where
  w : ResponseWriter
  calls : List OutReq
  logs : List LogEntry
  panicked : Bool

/-- A Go `http.HandlerFunc`. -/
abbrev Handler := Request → Fx → Fx

/-- The state in which the server hands a request to the handler chain. -/
def Fx.fresh : Fx :=
  { w := { header := [], status := none, body := [] },
    calls := [], logs := [], panicked := false }

/-- `w.Header().Set(key, value)`. -/
def Fx.setHeader (fx : Fx) (key value : String) : Fx :=
  if fx.panicked then fx
  else { fx with w := { fx.w with header := fx.w.header.Set key value } }

/-- `w.Header().Add(key, value)`. -/
def Fx.addHeader (fx : Fx) (key value : String) : Fx :=
  if fx.panicked then fx
  else { fx with w := { fx.w with header := fx.w.header.Add key value } }

/-- `w.Header().Del(key)`. -/
def Fx.delHeader (fx : Fx) (key : String) : Fx :=
  if fx.panicked then fx
  else { fx with w := { fx.w with header := fx.w.header.Del key } }

/-- `w.WriteHeader(code)`: panics on a code outside 100..999; a second
call is ignored. -/
def Fx.WriteHeader (fx : Fx) (code : Nat) : Fx :=
  if fx.panicked then fx
  else if code < 100 || code > 999 then { fx with panicked := true }
  else if fx.w.status.isSome then fx
  else { fx with w := { fx.w with status := some code } }

/-- `w.Write(chunk)`: writes status 200 first when no status was written. -/
def Fx.Write (fx : Fx) (c : Chunk) : Fx :=
  if fx.panicked then fx
  else
    { fx with w := { fx.w with
        status := some (fx.w.status.getD 200),
        body := fx.w.body ++ [c] } }

/-- Records an outbound call handed to the client. -/
def Fx.call (fx : Fx) (req : OutReq) : Fx :=
  { fx with calls := fx.calls ++ [req] }

/-- A nil-pointer panic in the handler. -/
def Fx.nilPanic (fx : Fx) : Fx :=
  { fx with panicked := true }

/-- Go `http.Error(w, msg, code)`. -/
def httpError (fx : Fx) (msg : String) (code : Nat) : Fx :=
  ((((fx.delHeader "Content-Length").setHeader "Content-Type"
      "text/plain; charset=utf-8").setHeader "X-Content-Type-Options"
      "nosniff").WriteHeader code).Write (Chunk.text (msg ++ "\n"))

/-- Go `Gateway.sendResponse`. -/
def sendResponse (fx : Fx) (statusCode : Nat) (data : JVal)
    (err : Option ErrorInfo) : Fx :=
  ((fx.setHeader "Content-Type" "application/json").WriteHeader
    statusCode).Write (Chunk.envelope { data := data, error := err })

/-! ## Middleware -/

/-- Go `Gateway.authMiddleware`. -/
def authMiddleware (g : Gateway) (next : Handler) : Handler := fun r fx =>
  if g.apiKey != "" then
    let providedKey := r.header.Get "X-API-Key"
    let providedKey :=
      if providedKey == "" then r.query.Get "api_key" else providedKey
    if providedKey != g.apiKey then
      ((fx.setHeader "Content-Type" "application/json").WriteHeader 401).Write
        (Chunk.json (JVal.obj
          [("error", JVal.str "Unauthorized: Invalid or missing API key")]))
    else next r fx
  else next r fx

/-- Go `getClientIP`. -/
def getClientIP (r : Request) : String :=
  let forwarded := r.header.Get "X-Forwarded-For"
  if forwarded != "" then forwarded
  else
    let realIP := r.header.Get "X-Real-IP"
    if realIP != "" then realIP else r.remoteAddr

/-- Go `Gateway.loggingMiddleware`. The wrapper's `statusCode` starts at
200 and takes the code of `WriteHeader`; a panic in `next` skips the log
record. -/
def loggingMiddleware (_g : Gateway) (next : Handler) : Handler := fun r fx =>
  let fx' := next r fx
  if fx'.panicked then fx'
  else
    { fx' with logs := fx'.logs ++
        [{ method := r.method, path := r.path,
           status := fx'.w.status.getD 200,
           ip := getClientIP r,
           userAgent := r.header.Get "User-Agent",
           requestSize := r.body.raw.utf8ByteSize }] }

/-- Go `Gateway.corsMiddleware`. -/
def corsMiddleware (_g : Gateway) (next : Handler) : Handler := fun r fx =>
  let fx := fx.setHeader "Access-Control-Allow-Origin" "*"
  let fx := fx.setHeader "Access-Control-Allow-Methods"
    "GET, POST, PUT, PATCH, DELETE, OPTIONS"
  let fx := fx.setHeader "Access-Control-Allow-Headers"
    "Content-Type, Authorization, X-API-Key, Prefer"
  let fx := fx.setHeader "Access-Control-Expose-Headers"
    "Content-Range, Content-Encoding, Content-Length"
  if r.method == "OPTIONS" then fx.WriteHeader 200
  else next r fx

/-! ## Generic proxy -/

/-- The header-copy loop of `proxyToBackend` for one key of `r.Header`. -/
def copyRequestHeader (acc : Header) (e : String × List String) : Header :=
  if e.1 != "Host" then e.2.foldl (fun h value => h.Add e.1 value) acc
  else acc

/-- The `corsHeaders` table of `proxyToBackend`. -/
def corsHeaders (key : String) : Bool :=
  key == "Access-Control-Allow-Origin" ||
  key == "Access-Control-Allow-Methods" ||
  key == "Access-Control-Allow-Headers" ||
  key == "Access-Control-Expose-Headers" ||
  key == "Access-Control-Allow-Credentials" ||
  key == "Access-Control-Max-Age"

/-- The response-header copy loop of `proxyToBackend` for one key of
`resp.Header`. -/
def copyResponseHeader (fx : Fx) (e : String × List String) : Fx :=
  if corsHeaders e.1 then fx
  else e.2.foldl (fun acc value => acc.addHeader e.1 value) fx

/-- Go `Gateway.proxyToBackend`. -/
def proxyToBackend (g : Gateway) (r : Request) (targetURL : String)
    (fx : Fx) : Fx :=
  let req : OutReq :=
    { method := r.method, url := targetURL,
      header := r.header.foldl copyRequestHeader [],
      body := OutBody.stream r.body }
  match g.client req with
  | DoResult.noRequest err =>
    httpError fx ("Error creating request: " ++ err) 500
  | DoResult.transportError err =>
    httpError (fx.call req) ("Error forwarding request: " ++ err) 502
  | DoResult.response resp =>
    let fx := resp.header.foldl copyResponseHeader (fx.call req)
    (fx.WriteHeader resp.statusCode.val).Write (Chunk.stream resp.body)

/-! ## Façade handlers

`sprintV` stands for `fmt.Sprintf("%v", v)` on a decoded JSON value. The
`log.Printf` diagnostics of the handlers are not part of the model. -/

/-- The error written when the backend cannot be reached. -/
def connectError : ErrorInfo :=
  { code := "BACKEND_ERROR", message := "Failed to connect to backend API" }

/-- Go `Gateway.handleAddCartItem`. -/
def handleAddCartItem (sprintV : JVal → String) (g : Gateway) : Handler :=
  fun r fx =>
  match decodeMap r.body with
  | none =>
    sendResponse fx 400 JVal.null
      (some { code := "VALIDATION_ERROR", message := "Invalid request body" })
  | some body =>
    match validateCartItemRequest body with
    | some err => sendResponse fx 400 JVal.null (some err)
    | none =>
      let targetURL := g.backendAPIURL ++ "/api/v1/cart/items"
      let req : OutReq :=
        { method := "POST", url := targetURL,
          header := Header.Set [] "Content-Type" "application/json",
          body := OutBody.json body.toJSON }
      match g.client req with
      | DoResult.noRequest _ => fx.nilPanic
      | DoResult.transportError _ =>
        sendResponse (fx.call req) 502 JVal.null (some connectError)
      | DoResult.response resp =>
        let fx := fx.call req
        let backendResp := decodeMapLax resp.body
        if resp.statusCode.val ≥ 400 then
          let (code, ok) := assertString (backendResp.index "code")
          let errorCode := if ok then code else "BACKEND_ERROR"
          sendResponse fx resp.statusCode.val JVal.null
            (some { code := errorCode,
                    message := sprintV (backendResp.index "message"),
                    details := backendResp.index "details" })
        else
          let cartData : Entries :=
            [("cartId", backendResp.index "cartId"),
             ("cart", backendResp.index "cart")]
          sendResponse fx 200 (JVal.obj cartData) none

/-- Go `Gateway.handleGetCart`. -/
def handleGetCart (sprintV : JVal → String) (g : Gateway) : Handler :=
  fun r fx =>
  let cartId := r.query.Get "cartId"
  if cartId == "" then
    sendResponse fx 400 JVal.null
      (some { code := "VALIDATION_ERROR",
              message := "cartId query parameter is required" })
  else
    let targetURL := g.backendAPIURL ++ "/api/v1/cart/" ++ cartId
    let req : OutReq :=
      { method := "GET", url := targetURL, header := [], body := OutBody.empty }
    match g.client req with
    | DoResult.noRequest _ => fx.nilPanic
    | DoResult.transportError _ =>
      sendResponse (fx.call req) 502 JVal.null (some connectError)
    | DoResult.response resp =>
      let fx := fx.call req
      let backendResp := decodeMapLax resp.body
      if resp.statusCode.val ≥ 400 then
        sendResponse fx resp.statusCode.val JVal.null
          (some { code := "BACKEND_ERROR",
                  message := sprintV (backendResp.index "message") })
      else
        let cartData : Entries :=
          [("cartId", JVal.str cartId), ("cart", backendResp.toJSON)]
        sendResponse fx 200 (JVal.obj cartData) none

/-- Go `Gateway.handleUpdateCartItem`. -/
def handleUpdateCartItem (sprintV : JVal → String) (g : Gateway) : Handler :=
  fun r fx =>
  match decodeMap r.body with
  | none =>
    sendResponse fx 400 JVal.null
      (some { code := "VALIDATION_ERROR", message := "Invalid request body" })
  | some body =>
    if !(assertString (body.index "cartId")).2 then
      sendResponse fx 400 JVal.null
        (some { code := "VALIDATION_ERROR", message := "cartId is required" })
    else if !(assertString (body.index "lineId")).2 then
      sendResponse fx 400 JVal.null
        (some { code := "VALIDATION_ERROR", message := "lineId is required" })
    else
      let targetURL := g.backendAPIURL ++ "/api/v1/cart/items"
      let req : OutReq :=
        { method := "PUT", url := targetURL,
          header := Header.Set [] "Content-Type" "application/json",
          body := OutBody.json body.toJSON }
      match g.client req with
      | DoResult.noRequest _ => fx.nilPanic
      | DoResult.transportError _ =>
        sendResponse (fx.call req) 502 JVal.null (some connectError)
      | DoResult.response resp =>
        let fx := fx.call req
        let backendResp := decodeMapLax resp.body
        if resp.statusCode.val ≥ 400 then
          sendResponse fx resp.statusCode.val JVal.null
            (some { code := "BACKEND_ERROR",
                    message := sprintV (backendResp.index "message") })
        else
          let cartData : Entries :=
            [("cartId", body.index "cartId"), ("cart", backendResp.toJSON)]
          sendResponse fx 200 (JVal.obj cartData) none

/-- Go `Gateway.handleRemoveCartItem`. -/
def handleRemoveCartItem (sprintV : JVal → String) (g : Gateway) : Handler :=
  fun r fx =>
  match decodeMap r.body with
  | none =>
    sendResponse fx 400 JVal.null
      (some { code := "VALIDATION_ERROR", message := "Invalid request body" })
  | some body =>
    if !(assertString (body.index "cartId")).2 then
      sendResponse fx 400 JVal.null
        (some { code := "VALIDATION_ERROR", message := "cartId is required" })
    else if !(assertString (body.index "lineId")).2 then
      sendResponse fx 400 JVal.null
        (some { code := "VALIDATION_ERROR", message := "lineId is required" })
    else
      let targetURL := g.backendAPIURL ++ "/api/v1/cart/items"
      let req : OutReq :=
        { method := "DELETE", url := targetURL,
          header := Header.Set [] "Content-Type" "application/json",
          body := OutBody.json body.toJSON }
      match g.client req with
      | DoResult.noRequest _ => fx.nilPanic
      | DoResult.transportError _ =>
        sendResponse (fx.call req) 502 JVal.null (some connectError)
      | DoResult.response resp =>
        let fx := fx.call req
        let backendResp := decodeMapLax resp.body
        if resp.statusCode.val ≥ 400 then
          sendResponse fx resp.statusCode.val JVal.null
            (some { code := "BACKEND_ERROR",
                    message := sprintV (backendResp.index "message") })
        else
          let cartData : Entries :=
            [("cartId", body.index "cartId"), ("cart", backendResp.toJSON)]
          sendResponse fx 200 (JVal.obj cartData) none

/-- Go `Gateway.handleCheckout`. -/
def handleCheckout (sprintV : JVal → String) (g : Gateway) : Handler :=
  fun r fx =>
  match decodeMap r.body with
  | none =>
    sendResponse fx 400 JVal.null
      (some { code := "VALIDATION_ERROR", message := "Invalid request body" })
  | some body =>
    if !(assertString (body.index "cartId")).2 then
      sendResponse fx 400 JVal.null
        (some { code := "VALIDATION_ERROR", message := "cartId is required" })
    else
      let targetURL := g.backendAPIURL ++ "/api/v1/cart/checkout"
      let req : OutReq :=
        { method := "POST", url := targetURL,
          header := Header.Set [] "Content-Type" "application/json",
          body := OutBody.json body.toJSON }
      match g.client req with
      | DoResult.noRequest _ => fx.nilPanic
      | DoResult.transportError _ =>
        sendResponse (fx.call req) 502 JVal.null (some connectError)
      | DoResult.response resp =>
        let fx := fx.call req
        let backendResp := decodeMapLax resp.body
        if resp.statusCode.val ≥ 400 then
          sendResponse fx resp.statusCode.val JVal.null
            (some { code := "BACKEND_ERROR",
                    message := sprintV (backendResp.index "message") })
        else sendResponse fx 200 backendResp.toJSON none

/-- The success shaping of `handleCreateDepositSession` once `session_id`
is known (the `responseData` map, lines 740-771). -/
def depositSessionData (backendResp : GoMap) (sessionId : String) : Entries :=
  let responseData : Entries :=
    [("deposit_session_url", JVal.str ("/deposit-session/" ++ sessionId)),
     ("session_id", JVal.str sessionId)]
  let responseData :=
    let (checkoutUrl, ok) := assertString (backendResp.index "checkout_url")
    if ok && checkoutUrl != "" then
      Entries.set "checkout_url" (JVal.str checkoutUrl) responseData
    else
      let (checkoutUrl, ok) := assertString (backendResp.index "checkoutUrl")
      if ok && checkoutUrl != "" then
        Entries.set "checkout_url" (JVal.str checkoutUrl) responseData
      else responseData
  let responseData :=
    let (draftOrderIds, ok) := assertSlice (backendResp.index "draft_order_ids")
    if ok then Entries.set "draft_order_ids" (JVal.arr draftOrderIds) responseData
    else
      let (draftOrderIds, ok) := assertSlice (backendResp.index "draftOrderIds")
      if ok then
        Entries.set "draft_order_ids" (JVal.arr draftOrderIds) responseData
      else responseData
  let responseData :=
    let (firstDraftOrderId, ok) :=
      assertString (backendResp.index "first_draft_order_id")
    if ok then
      Entries.set "first_draft_order_id" (JVal.str firstDraftOrderId) responseData
    else
      let (firstDraftOrderId, ok) :=
        assertString (backendResp.index "firstDraftOrderId")
      if ok then
        Entries.set "first_draft_order_id" (JVal.str firstDraftOrderId)
          responseData
      else responseData
  let responseData :=
    let (paymentAmounts, ok) := assertSlice (backendResp.index "payment_amounts")
    if ok then Entries.set "payment_amounts" (JVal.arr paymentAmounts) responseData
    else
      let (paymentAmounts, ok) := assertSlice (backendResp.index "paymentAmounts")
      if ok then
        Entries.set "payment_amounts" (JVal.arr paymentAmounts) responseData
      else responseData
  responseData

/-- Go `Gateway.handleCreateDepositSession`. -/
def handleCreateDepositSession (g : Gateway) : Handler := fun r fx =>
  match decodeMap r.body with
  | none =>
    sendResponse fx 400 JVal.null
      (some { code := "VALIDATION_ERROR", message := "Invalid request body" })
  | some body =>
    if !(assertString (body.index "cartId")).2 then
      sendResponse fx 400 JVal.null
        (some { code := "VALIDATION_ERROR", message := "cartId is required" })
    else
      let targetURL := g.backendAPIURL ++ "/api/v1/deposit-sessions"
      let req : OutReq :=
        { method := "POST", url := targetURL,
          header := Header.Set [] "Content-Type" "application/json",
          body := OutBody.json body.toJSON }
      match g.client req with
      | DoResult.noRequest _ => fx.nilPanic
      | DoResult.transportError _ =>
        sendResponse (fx.call req) 502 JVal.null (some connectError)
      | DoResult.response resp =>
        let fx := fx.call req
        let backendResp := decodeMapLax resp.body
        if resp.statusCode.val ≥ 400 then
          let (code, ok) := assertString (backendResp.index "code")
          let errorCode := if ok then code else "BACKEND_ERROR"
          let (message, okMessage) := assertString (backendResp.index "message")
          let (msg, okMsg) := assertString (backendResp.index "error")
          let errorMessage :=
            if okMessage then message
            else if okMsg then msg
            else "An error occurred"
          sendResponse fx resp.statusCode.val JVal.null
            (some { code := errorCode, message := errorMessage,
                    details := backendResp.index "details" })
        else
          let (sessionId, ok) := assertString (backendResp.index "session_id")
          if !ok then sendResponse fx 200 backendResp.toJSON none
          else
            sendResponse fx 200
              (JVal.obj (depositSessionData backendResp sessionId)) none

/-- Go `Gateway.handleGetDepositSession`. -/
def handleGetDepositSession (sprintV : JVal → String) (g : Gateway) : Handler :=
  fun r fx =>
  let pathParts := Split r.path '/'
  if pathParts.length < 4 then
    sendResponse fx 400 JVal.null
      (some { code := "VALIDATION_ERROR", message := "sessionId is required" })
  else
    let sessionId := pathParts.getD 3 ""
    let targetURL := g.backendAPIURL ++ "/api/v1/deposit-sessions/" ++ sessionId
    let req : OutReq :=
      { method := "GET", url := targetURL, header := [], body := OutBody.empty }
    match g.client req with
    | DoResult.noRequest _ => fx.nilPanic
    | DoResult.transportError _ =>
      sendResponse (fx.call req) 502 JVal.null (some connectError)
    | DoResult.response resp =>
      let fx := fx.call req
      let backendResp := decodeMapLax resp.body
      if resp.statusCode.val ≥ 400 then
        sendResponse fx resp.statusCode.val JVal.null
          (some { code := "BACKEND_ERROR",
                  message := sprintV (backendResp.index "message") })
      else
        let responseData : Entries := [("session", backendResp.toJSON)]
        sendResponse fx 200 (JVal.obj responseData) none

/-- Go `Gateway.handleDepositSessionCheckout`. -/
def handleDepositSessionCheckout (sprintV : JVal → String) (g : Gateway) :
    Handler := fun r fx =>
  let pathParts := Split r.path '/'
  if pathParts.length < 4 then
    sendResponse fx 400 JVal.null
      (some { code := "VALIDATION_ERROR", message := "sessionId is required" })
  else
    let sessionId := pathParts.getD 3 ""
    let targetURL :=
      g.backendAPIURL ++ "/api/v1/deposit-sessions/" ++ sessionId ++ "/checkout"
    let req : OutReq :=
      { method := "POST", url := targetURL,
        header := Header.Set [] "Content-Type" "application/json",
        body := OutBody.empty }
    match g.client req with
    | DoResult.noRequest _ => fx.nilPanic
    | DoResult.transportError _ =>
      sendResponse (fx.call req) 502 JVal.null (some connectError)
    | DoResult.response resp =>
      let fx := fx.call req
      let backendResp := decodeMapLax resp.body
      if resp.statusCode.val ≥ 400 then
        sendResponse fx resp.statusCode.val JVal.null
          (some { code := "BACKEND_ERROR",
                  message := sprintV (backendResp.index "message") })
      else sendResponse fx 200 backendResp.toJSON none

/-- Go `Gateway.handleGetOrderStatus`. -/
def handleGetOrderStatus (sprintV : JVal → String) (g : Gateway) : Handler :=
  fun r fx =>
  let pathParts := Split r.path '/'
  if pathParts.length < 4 then
    sendResponse fx 400 JVal.null
      (some { code := "VALIDATION_ERROR", message := "orderId is required" })
  else
    let orderId := pathParts.getD 3 ""
    let targetURL := g.backendAPIURL ++ "/api/v1/orders/" ++ orderId
    let req : OutReq :=
      { method := "GET", url := targetURL, header := [], body := OutBody.empty }
    match g.client req with
    | DoResult.noRequest _ => fx.nilPanic
    | DoResult.transportError _ =>
      sendResponse (fx.call req) 502 JVal.null (some connectError)
    | DoResult.response resp =>
      let fx := fx.call req
      let backendResp := decodeMapLax resp.body
      if resp.statusCode.val ≥ 400 then
        sendResponse fx resp.statusCode.val JVal.null
          (some { code := "BACKEND_ERROR",
                  message := sprintV (backendResp.index "message") })
      else sendResponse fx 200 backendResp.toJSON none

/-- Go `Gateway.handleGetDepositPlans`. -/
def handleGetDepositPlans (sprintV : JVal → String) (g : Gateway) : Handler :=
  fun _r fx =>
  let targetURL := g.backendAPIURL ++ "/api/v1/deposit-plans"
  let req : OutReq :=
    { method := "GET", url := targetURL, header := [], body := OutBody.empty }
  match g.client req with
  | DoResult.noRequest _ => fx.nilPanic
  | DoResult.transportError _ =>
    sendResponse (fx.call req) 502 JVal.null (some connectError)
  | DoResult.response resp =>
    let fx := fx.call req
    let backendResp := decodeAnyLax resp.body
    if resp.statusCode.val ≥ 400 then
      let errorResp := (assertMap backendResp).1
      sendResponse fx resp.statusCode.val JVal.null
        (some { code := "BACKEND_ERROR",
                message := sprintV (errorResp.index "message") })
    else sendResponse fx 200 backendResp none

/-- Go `Gateway.handleGetDefaultDepositPlan`. -/
def handleGetDefaultDepositPlan (sprintV : JVal → String) (g : Gateway) :
    Handler := fun _r fx =>
  let targetURL := g.backendAPIURL ++ "/api/v1/deposit-plans/default"
  let req : OutReq :=
    { method := "GET", url := targetURL, header := [], body := OutBody.empty }
  match g.client req with
  | DoResult.noRequest _ => fx.nilPanic
  | DoResult.transportError _ =>
    sendResponse (fx.call req) 502 JVal.null (some connectError)
  | DoResult.response resp =>
    let fx := fx.call req
    let backendResp := decodeAnyLax resp.body
    if resp.statusCode.val ≥ 400 then
      let errorResp := (assertMap backendResp).1
      sendResponse fx resp.statusCode.val JVal.null
        (some { code := "BACKEND_ERROR",
                message := sprintV (errorResp.index "message") })
    else sendResponse fx 200 backendResp none

/-- Go `Gateway.handleGetDepositPlan`. -/
def handleGetDepositPlan (sprintV : JVal → String) (g : Gateway) : Handler :=
  fun r fx =>
  let pathParts := Split r.path '/'
  if pathParts.length < 4 then
    sendResponse fx 400 JVal.null
      (some { code := "VALIDATION_ERROR", message := "planId is required" })
  else
    let planId := pathParts.getD 3 ""
    let targetURL := g.backendAPIURL ++ "/api/v1/deposit-plans/" ++ planId
    let req : OutReq :=
      { method := "GET", url := targetURL, header := [], body := OutBody.empty }
    match g.client req with
    | DoResult.noRequest _ => fx.nilPanic
    | DoResult.transportError _ =>
      sendResponse (fx.call req) 502 JVal.null (some connectError)
    | DoResult.response resp =>
      let fx := fx.call req
      let backendResp := decodeAnyLax resp.body
      if resp.statusCode.val ≥ 400 then
        let errorResp := (assertMap backendResp).1
        sendResponse fx resp.statusCode.val JVal.null
          (some { code := "BACKEND_ERROR",
                  message := sprintV (errorResp.index "message") })
      else sendResponse fx 200 backendResp none

/-! ## Routing -/

/-- Go `Gateway.frontendAPIHandler`. A `cart/items` request with a method
other than POST, PUT or DELETE leaves the switch and is proxied. -/
def frontendAPIHandler (sprintV : JVal → String) (g : Gateway) : Handler :=
  fun r fx =>
  let path := r.path
  let backendPath := TrimPrefix path "/api/gw/v1"
  let proxied := proxyToBackend g r (g.backendAPIURL ++ "/api/v1" ++ backendPath) fx
  if HasPrefix path "/api/gw/v1/cart/items" then
    if r.method == "POST" then handleAddCartItem sprintV g r fx
    else if r.method == "PUT" then handleUpdateCartItem sprintV g r fx
    else if r.method == "DELETE" then handleRemoveCartItem sprintV g r fx
    else proxied
  else if HasPrefix path "/api/gw/v1/cart" && r.method == "GET" then
    handleGetCart sprintV g r fx
  else if HasPrefix path "/api/gw/v1/cart/checkout" && r.method == "POST" then
    handleCheckout sprintV g r fx
  else if HasPrefix path "/api/gw/v1/deposit-sessions/create-from-cart"
      && r.method == "POST" then
    handleCreateDepositSession g r fx
  else if HasPrefix path "/api/gw/v1/deposit-sessions/"
      && Contains path "/checkout" && r.method == "POST" then
    handleDepositSessionCheckout sprintV g r fx
  else if HasPrefix path "/api/gw/v1/deposit-sessions/" && r.method == "GET" then
    handleGetDepositSession sprintV g r fx
  else if HasPrefix path "/api/gw/v1/deposit-plans/default"
      && r.method == "GET" then
    handleGetDefaultDepositPlan sprintV g r fx
  else if HasPrefix path "/api/gw/v1/deposit-plans/" && r.method == "GET" then
    handleGetDepositPlan sprintV g r fx
  else if HasPrefix path "/api/gw/v1/deposit-plans" && r.method == "GET" then
    handleGetDepositPlans sprintV g r fx
  else if HasPrefix path "/api/gw/v1/orders/" && r.method == "GET" then
    handleGetOrderStatus sprintV g r fx
  else proxied

/-- The target URL that the switch of `proxyHandler` resolves for a path
outside the façade prefix, before the query string is attached. -/
def routeTarget (g : Gateway) (path : String) : String :=
  if HasPrefix path "/rest/" then g.postgrestURL ++ TrimPrefix path "/rest"
  else if HasPrefix path "/api/" then g.backendAPIURL ++ TrimPrefix path "/api"
  else if HasPrefix path "/mcp/" then
    if path == "/mcp/health" then g.mcpServiceURL ++ "/health"
    else g.mcpServiceURL ++ path
  else if HasPrefix path "/worker/" then
    g.workerServiceURL ++ TrimPrefix path "/worker"
  else g.postgrestURL ++ path

/-- Go `Gateway.proxyHandler`. -/
def proxyHandler (sprintV : JVal → String) (g : Gateway) : Handler :=
  fun r fx =>
  let path := r.path
  if HasPrefix path "/api/gw/v1/" then frontendAPIHandler sprintV g r fx
  else
    let targetURL := routeTarget g path
    let targetURL :=
      if r.rawQuery != "" then targetURL ++ "?" ++ r.rawQuery else targetURL
    proxyToBackend g r targetURL fx

/-- The handler that `main` registers:
`corsMiddleware(loggingMiddleware(authMiddleware(proxyHandler)))`. -/
def handler (sprintV : JVal → String) (g : Gateway) : Handler :=
  corsMiddleware g (loggingMiddleware g (authMiddleware g (proxyHandler sprintV g)))

/-! ## Predicates used in the statements -/

/-- Nothing has been written to the response yet and the handler has not
panicked. -/
def Fx.Unwritten (fx : Fx) : Prop :=
  fx.w.status = none ∧ fx.panicked = false

/-! ## Sample inputs -/

/-- A rendering that agrees with `fmt.Sprintf("%v", v)` on nil and on
strings, the only values it is applied to in the samples below. -/
def sampleSprintV : JVal → String
  | JVal.null => "<nil>"
  | JVal.str s => s
  | _ => ""

/-- A body holding the given JSON value. -/
def jsonBody (raw : String) (v : JVal) : Payload :=
  { raw := raw, json := some v }

/-- An empty body. -/
def noBody : Payload :=
  { raw := "", json := none }

/-- A gateway with short backend URLs, the given API key and client. -/
def sampleGateway (apiKey : String) (client : OutReq → DoResult) : Gateway :=
  { postgrestURL := "http://pg", backendAPIURL := "http://be",
    mcpServiceURL := "http://mcp", workerServiceURL := "http://wk",
    apiKey := apiKey, client := client }

/-- A client whose backend answers every request with the given status and
body. -/
def replyWith (status : Fin 1000) (body : Payload) : OutReq → DoResult :=
  fun _ => DoResult.response { statusCode := status, header := [], body := body }

/-- A client whose every call fails at transport level. -/
def unreachable : OutReq → DoResult :=
  fun _ => DoResult.transportError "timeout"

/-- An inbound request with no headers. -/
def sampleRequest (method path rawQuery : String) (query : MultiMap)
    (body : Payload) : Request :=
  { method := method, path := path, rawQuery := rawQuery, query := query,
    header := [], body := body, remoteAddr := "10.0.0.1:5000" }

/-- A request with the right key in the api_key query parameter and a wrong
key in the X-API-Key header (stored under its canonical name). -/
def rightQueryWrongHeader : Request :=
  { sampleRequest "GET" "/rest/foo" "api_key=secret" [("api_key", ["secret"])]
      noBody with
    header := [("X-Api-Key", ["wrong"])] }

/-- A downstream handler that answers 204 with no body. -/
def sampleNext : Handler :=
  fun _ fx => fx.WriteHeader 204

/-- The rejection written by `authMiddleware` on top of the state `fx`. -/
def unauthorizedOn (fx : Fx) : Fx :=
  { w := { header := fx.w.header.Set "Content-Type" "application/json",
           status := some 401,
           body := fx.w.body ++
             [Chunk.json (JVal.obj
               [("error", JVal.str "Unauthorized: Invalid or missing API key")])] },
    calls := fx.calls, logs := fx.logs, panicked := false }

/-- The pre-flight answer: status 200, no body, the four CORS headers, no
outbound call, no log record. -/
def preflightAnswer : Fx :=
  { w := { header :=
             [("Access-Control-Allow-Origin", ["*"]),
              ("Access-Control-Allow-Methods",
                ["GET, POST, PUT, PATCH, DELETE, OPTIONS"]),
              ("Access-Control-Allow-Headers",
                ["Content-Type, Authorization, X-API-Key, Prefer"]),
              ("Access-Control-Expose-Headers",
                ["Content-Range, Content-Encoding, Content-Length"])],
           status := some 200, body := [] },
    calls := [], logs := [], panicked := false }

/-! ## Field reconciliation as the specification words it -/

/-- The value is a string. -/
def isString : JVal → Bool
  | JVal.str _ => true
  | _ => false

/-- The value is a string other than "". -/
def isNonEmptyString : JVal → Bool
  | JVal.str s => s != ""
  | _ => false

/-- The value is an array. -/
def isArray : JVal → Bool
  | JVal.arr _ => true
  | _ => false

/-- Reconciliation of one field: the snake_case backend value when
`accept` holds of it, otherwise the camelCase backend value when `accept`
holds of it, otherwise no value. -/
def reconciled (accept : JVal → Bool) (m : GoMap) (snake camel : String) :
    Option JVal :=
  if accept (m.index snake) then some (m.index snake)
  else if accept (m.index camel) then some (m.index camel)
  else none

/-- The contents of the reshaped deposit-session data, key by key. -/
def depositSessionContract (m : GoMap) (s : String) (k : String) : Option JVal :=
  if k = "deposit_session_url" then some (JVal.str ("/deposit-session/" ++ s))
  else if k = "session_id" then some (JVal.str s)
  else if k = "checkout_url" then
    reconciled isNonEmptyString m "checkout_url" "checkoutUrl"
  else if k = "draft_order_ids" then
    reconciled isArray m "draft_order_ids" "draftOrderIds"
  else if k = "first_draft_order_id" then
    reconciled isString m "first_draft_order_id" "firstDraftOrderId"
  else if k = "payment_amounts" then
    reconciled isArray m "payment_amounts" "paymentAmounts"
  else none

/-- The outbound request of `handleCreateDepositSession` for a decoded
body. -/
def createSessionRequest (g : Gateway) (body : Entries) : OutReq :=
  { method := "POST", url := g.backendAPIURL ++ "/api/v1/deposit-sessions",
    header := Header.Set [] "Content-Type" "application/json",
    body := OutBody.json (JVal.obj body) }

/-- A deposit-session create request for cart c1. -/
def createSessionSample : Request :=
  sampleRequest "POST" "/api/gw/v1/deposit-sessions/create-from-cart" "" []
    (jsonBody "\x7b\"cartId\":\"c1\"\x7d" (JVal.obj [("cartId", JVal.str "c1")]))

/-- The checkout_url entry as the claim words it: the snake_case value
when it is a non-empty string, otherwise the camelCase value when it is a
string. -/
def checkoutUrlAsClaimed (m : GoMap) : Option JVal :=
  if isNonEmptyString (m.index "checkout_url") then some (m.index "checkout_url")
  else if isString (m.index "checkoutUrl") then some (m.index "checkoutUrl")
  else none

/-- Backend JSON with a session id and an empty camelCase checkout URL. -/
def emptyCamelCheckout : Entries :=
  [("session_id", JVal.str "s1"), ("checkoutUrl", JVal.str "")]

/-- Backend JSON with a session id and a camelCase checkout URL. -/
def camelCheckout : Entries :=
  [("session_id", JVal.str "s1"), ("checkoutUrl", JVal.str "http://x")]

/-! ## The façade handlers as a family -/

/-- The twelve façade handlers. -/
inductive Facade where
  | addCartItem
  | getCart
  | updateCartItem
  | removeCartItem
  | checkout
  | createDepositSession
  | getDepositSession
  | depositSessionCheckout
  | getDepositPlans
  | getDefaultDepositPlan
  | getDepositPlan
  | getOrderStatus

/-- The handler behind each façade endpoint. -/
def Facade.run (sprintV : JVal → String) (g : Gateway) : Facade → Handler
  | Facade.addCartItem => handleAddCartItem sprintV g
  | Facade.getCart => handleGetCart sprintV g
  | Facade.updateCartItem => handleUpdateCartItem sprintV g
  | Facade.removeCartItem => handleRemoveCartItem sprintV g
  | Facade.checkout => handleCheckout sprintV g
  | Facade.createDepositSession => handleCreateDepositSession g
  | Facade.getDepositSession => handleGetDepositSession sprintV g
  | Facade.depositSessionCheckout => handleDepositSessionCheckout sprintV g
  | Facade.getDepositPlans => handleGetDepositPlans sprintV g
  | Facade.getDefaultDepositPlan => handleGetDefaultDepositPlan sprintV g
  | Facade.getDepositPlan => handleGetDepositPlan sprintV g
  | Facade.getOrderStatus => handleGetOrderStatus sprintV g

/-- The five ways a façade handler run from state `fx` can end: a local
rejection, a panic because no outbound request could be built, a transport
failure, a backend error status, a backend success. -/
inductive FacadeOutcome (g : Gateway) (fx : Fx) : Fx → Prop where
  | rejected (e : ErrorInfo) (hcode : e.code = "VALIDATION_ERROR") :
      FacadeOutcome g fx (sendResponse fx 400 JVal.null (some e))
  | aborted (q : OutReq) (err : String)
      (hq : g.client q = DoResult.noRequest err) :
      FacadeOutcome g fx fx.nilPanic
  | unreached (q : OutReq) (err : String)
      (hq : g.client q = DoResult.transportError err) :
      FacadeOutcome g fx
        (sendResponse (fx.call q) 502 JVal.null (some connectError))
  | backendError (q : OutReq) (resp : BackendResp) (e : ErrorInfo)
      (hq : g.client q = DoResult.response resp)
      (hs : resp.statusCode.val ≥ 400) :
      FacadeOutcome g fx
        (sendResponse (fx.call q) resp.statusCode.val JVal.null (some e))
  | success (q : OutReq) (resp : BackendResp) (data : JVal)
      (hq : g.client q = DoResult.response resp)
      (hs : ¬ resp.statusCode.val ≥ 400) :
      FacadeOutcome g fx (sendResponse (fx.call q) 200 data none)

/-- A backend error body carrying its own code. -/
def cartNotFound : Payload :=
  jsonBody "\x7b\"code\":\"CART_NOT_FOUND\",\"message\":\"no such cart\"\x7d"
    (JVal.obj [("code", JVal.str "CART_NOT_FOUND"),
               ("message", JVal.str "no such cart")])

/-- A cart fetch for cart c1. -/
def getCartSample : Request :=
  sampleRequest "GET" "/api/gw/v1/cart" "cartId=c1" [("cartId", ["c1"])] noBody

/-- A valid cart item add. -/
def addCartItemSample : Request :=
  sampleRequest "POST" "/api/gw/v1/cart/items" "" []
    (jsonBody "\x7b\"source\":\"external\",\"externalId\":\"x1\"\x7d"
      (JVal.obj [("source", JVal.str "external"), ("externalId", JVal.str "x1")]))

/-! ## Generic proxy: the request it builds -/

/-- The outbound request of `proxyToBackend` for an inbound request and a
target URL. -/
def proxyRequest (r : Request) (targetURL : String) : OutReq :=
  { method := r.method, url := targetURL,
    header := r.header.foldl copyRequestHeader [],
    body := OutBody.stream r.body }

/-- A client that times out on every call. -/
def timesOut : OutReq → DoResult :=
  fun _ => DoResult.transportError "context deadline exceeded"

/-! ## Cart item update: the request it builds -/

/-- The outbound request of `handleUpdateCartItem` for a decoded body. -/
def updateItemRequest (g : Gateway) (body : Entries) : OutReq :=
  { method := "PUT", url := g.backendAPIURL ++ "/api/v1/cart/items",
    header := Header.Set [] "Content-Type" "application/json",
    body := OutBody.json (JVal.obj body) }

/-- A cart item update with a cart id, a line id and a source that is
neither "shopify" nor "external". -/
def bogusSourceUpdate : Request :=
  sampleRequest "PUT" "/api/gw/v1/cart/items" "" []
    (jsonBody
      "\x7b\"cartId\":\"c1\",\"lineId\":\"l1\",\"source\":\"bogus\"\x7d"
      (JVal.obj [("cartId", JVal.str "c1"), ("lineId", JVal.str "l1"),
                 ("source", JVal.str "bogus")]))

/-! ## The façade dispatch table -/

/-- One row of the dispatch table: the method it asks for (`none`: any),
the path prefix, a substring the path must also contain (`none`: no such
test), and the transformer it selects (`none`: stop and proxy). -/
structure Route where
  method : Option String
  pathPrefix : String
  alsoContains : Option String
  target : Option Facade

/-- Whether a row applies to a method and path. -/
def Route.applies (rt : Route) (method path : String) : Bool :=
  HasPrefix path rt.pathPrefix &&
    rt.alsoContains.all (fun s => Contains path s) &&
    rt.method.all (fun m => method == m)

/-- The façade dispatch table, first match wins. -/
def facadeTable : List Route :=
  [{ method := some "POST", pathPrefix := "/api/gw/v1/cart/items",
     alsoContains := none, target := some Facade.addCartItem },
   { method := some "PUT", pathPrefix := "/api/gw/v1/cart/items",
     alsoContains := none, target := some Facade.updateCartItem },
   { method := some "DELETE", pathPrefix := "/api/gw/v1/cart/items",
     alsoContains := none, target := some Facade.removeCartItem },
   { method := none, pathPrefix := "/api/gw/v1/cart/items",
     alsoContains := none, target := none },
   { method := some "GET", pathPrefix := "/api/gw/v1/cart",
     alsoContains := none, target := some Facade.getCart },
   { method := some "POST", pathPrefix := "/api/gw/v1/cart/checkout",
     alsoContains := none, target := some Facade.checkout },
   { method := some "POST",
     pathPrefix := "/api/gw/v1/deposit-sessions/create-from-cart",
     alsoContains := none, target := some Facade.createDepositSession },
   { method := some "POST", pathPrefix := "/api/gw/v1/deposit-sessions/",
     alsoContains := some "/checkout",
     target := some Facade.depositSessionCheckout },
   { method := some "GET", pathPrefix := "/api/gw/v1/deposit-sessions/",
     alsoContains := none, target := some Facade.getDepositSession },
   { method := some "GET", pathPrefix := "/api/gw/v1/deposit-plans/default",
     alsoContains := none, target := some Facade.getDefaultDepositPlan },
   { method := some "GET", pathPrefix := "/api/gw/v1/deposit-plans/",
     alsoContains := none, target := some Facade.getDepositPlan },
   { method := some "GET", pathPrefix := "/api/gw/v1/deposit-plans",
     alsoContains := none, target := some Facade.getDepositPlans },
   { method := some "GET", pathPrefix := "/api/gw/v1/orders/",
     alsoContains := none, target := some Facade.getOrderStatus }]

/-- The transformer the table selects for a method and path, if any. -/
def facadeRoute (method path : String) : Option Facade :=
  match facadeTable.find? (fun rt => rt.applies method path) with
  | some rt => rt.target
  | none => none

/-- Dispatch through the table: run the selected transformer, or proxy to
the backend API with the façade prefix replaced by "/api/v1". -/
def dispatchByTable (sprintV : JVal → String) (g : Gateway) : Handler :=
  fun r fx =>
  match facadeRoute r.method r.path with
  | some f => f.run sprintV g r fx
  | none =>
    proxyToBackend g r
      (g.backendAPIURL ++ "/api/v1" ++ TrimPrefix r.path "/api/gw/v1") fx

/-! ## Generic proxy: response pass-through -/

/-- A header map as `net/http` holds it: one entry per key, every key in
canonical form. -/
def Header.WellFormed (h : Header) : Prop :=
  (h.map Prod.fst).Nodup ∧ ∀ e ∈ h, CanonicalMIMEHeaderKey e.1 = e.1

/-- The state after `fx'` differs from `fx` at most in the response
header map. -/
def Fx.HeaderEdit (fx fx' : Fx) : Prop :=
  fx'.panicked = fx.panicked ∧ fx'.w.status = fx.w.status ∧
    fx'.w.body = fx.w.body ∧ fx'.calls = fx.calls ∧ fx'.logs = fx.logs

/-- The state in which the CORS stage hands a request that is not OPTIONS
to the next stage: the four CORS headers set, nothing written. -/
def corsPrepared : Fx :=
  { preflightAnswer with w := { preflightAnswer.w with status := none } }

/-- The URL that `proxyHandler` hands to `proxyToBackend`: the resolved
target with the raw query attached. -/
def proxyURL (g : Gateway) (r : Request) : String :=
  if r.rawQuery = "" then routeTarget g r.path
  else routeTarget g r.path ++ "?" ++ r.rawQuery

/-- A backend answer with a content type, a repeated cookie header and its
own CORS headers. -/
def corsLadenResponse : BackendResp :=
  { statusCode := 201,
    header := [("Content-Type", ["application/json"]),
               ("Set-Cookie", ["a=1", "b=2"]),
               ("Access-Control-Allow-Origin", ["https://evil.example"]),
               ("Access-Control-Allow-Credentials", ["true"])],
    body := jsonBody "[1]" (JVal.arr [JVal.num "1"]) }

/-! ## Local validation of the façade handlers -/

/-- A GET with no headers and no body, as the handlers build it. -/
def plainGet (url : String) : OutReq :=
  { method := "GET", url := url, header := [], body := OutBody.empty }

/-- A request with a JSON body and the JSON content type, as the handlers
build it. -/
def jsonRequest (method url : String) (body : GoMap) : OutReq :=
  { method := method, url := url,
    header := Header.Set [] "Content-Type" "application/json",
    body := OutBody.json body.toJSON }

/-- The outbound request a façade handler builds for an inbound request
that passes the handler's local validation; `none` when the inbound
request fails it. -/
def Facade.request (g : Gateway) (f : Facade) (r : Request) : Option OutReq :=
  match f with
  | Facade.addCartItem =>
    match decodeMap r.body with
    | none => none
    | some body =>
      match validateCartItemRequest body with
      | some _ => none
      | none => some (jsonRequest "POST" (g.backendAPIURL ++ "/api/v1/cart/items") body)
  | Facade.getCart =>
    if r.query.Get "cartId" == "" then none
    else some (plainGet (g.backendAPIURL ++ "/api/v1/cart/" ++ r.query.Get "cartId"))
  | Facade.updateCartItem =>
    match decodeMap r.body with
    | none => none
    | some body =>
      if !(assertString (body.index "cartId")).2 then none
      else if !(assertString (body.index "lineId")).2 then none
      else some (jsonRequest "PUT" (g.backendAPIURL ++ "/api/v1/cart/items") body)
  | Facade.removeCartItem =>
    match decodeMap r.body with
    | none => none
    | some body =>
      if !(assertString (body.index "cartId")).2 then none
      else if !(assertString (body.index "lineId")).2 then none
      else some (jsonRequest "DELETE" (g.backendAPIURL ++ "/api/v1/cart/items") body)
  | Facade.checkout =>
    match decodeMap r.body with
    | none => none
    | some body =>
      if !(assertString (body.index "cartId")).2 then none
      else some (jsonRequest "POST" (g.backendAPIURL ++ "/api/v1/cart/checkout") body)
  | Facade.createDepositSession =>
    match decodeMap r.body with
    | none => none
    | some body =>
      if !(assertString (body.index "cartId")).2 then none
      else some (jsonRequest "POST" (g.backendAPIURL ++ "/api/v1/deposit-sessions") body)
  | Facade.getDepositSession =>
    if (Split r.path '/').length < 4 then none
    else some (plainGet (g.backendAPIURL ++ "/api/v1/deposit-sessions/" ++
      (Split r.path '/').getD 3 ""))
  | Facade.depositSessionCheckout =>
    if (Split r.path '/').length < 4 then none
    else
      some { method := "POST",
             url := g.backendAPIURL ++ "/api/v1/deposit-sessions/" ++
               (Split r.path '/').getD 3 "" ++ "/checkout",
             header := Header.Set [] "Content-Type" "application/json",
             body := OutBody.empty }
  | Facade.getDepositPlans =>
    some (plainGet (g.backendAPIURL ++ "/api/v1/deposit-plans"))
  | Facade.getDefaultDepositPlan =>
    some (plainGet (g.backendAPIURL ++ "/api/v1/deposit-plans/default"))
  | Facade.getDepositPlan =>
    if (Split r.path '/').length < 4 then none
    else some (plainGet (g.backendAPIURL ++ "/api/v1/deposit-plans/" ++
      (Split r.path '/').getD 3 ""))
  | Facade.getOrderStatus =>
    if (Split r.path '/').length < 4 then none
    else some (plainGet (g.backendAPIURL ++ "/api/v1/orders/" ++
      (Split r.path '/').getD 3 ""))

/-- What a façade handler run from `fx` must have done once it has built
the outbound request `q`, according to the client's answer to `q`. -/
def FacadeAfterCall (g : Gateway) (fx : Fx) (q : OutReq) (out : Fx) : Prop :=
  match g.client q with
  | DoResult.noRequest _ => out = fx.nilPanic
  | DoResult.transportError _ =>
    out = sendResponse (fx.call q) 502 JVal.null (some connectError)
  | DoResult.response resp =>
    if resp.statusCode.val ≥ 400 then
      ∃ e, out = sendResponse (fx.call q) resp.statusCode.val JVal.null (some e)
    else ∃ data, out = sendResponse (fx.call q) 200 data none

/-- The input-side contract of a façade handler: a locally invalid input is
answered 400 with VALIDATION_ERROR, a locally valid one leads to the call
and to the answer the client's reply determines. -/
def FacadeStep (sprintV : JVal → String) (g : Gateway) (f : Facade)
    (r : Request) (fx : Fx) : Prop :=
  match Facade.request g f r with
  | none =>
    ∃ e, f.run sprintV g r fx = sendResponse fx 400 JVal.null (some e) ∧
      e.code = "VALIDATION_ERROR"
  | some q => FacadeAfterCall g fx q (f.run sprintV g r fx)

/-! ## Theorems -/

theorem assertString_snd_eq_true (v : JVal) :
    (assertString v).2 = true ↔ ∃ s, v = JVal.str s := by
  cases v <;> simp [assertString]

theorem assertString_str (s : String) : assertString (JVal.str s) = (s, true) := rfl

/-- C1: validateCartItemRequest returns no error exactly when source is
"external" with a string externalId, or source is "shopify" with a string
variantId; every error it returns has code VALIDATION_ERROR, and the
message is "source must be 'shopify' or 'external'" exactly when source is
neither of the two accepted strings. -/
theorem validateCartItemRequest_spec (body : GoMap) :
    (validateCartItemRequest body = none ↔
      ((body.index "source" = JVal.str "external" ∧
          ∃ s, body.index "externalId" = JVal.str s) ∨
       (body.index "source" = JVal.str "shopify" ∧
          ∃ s, body.index "variantId" = JVal.str s))) ∧
    (∀ e, validateCartItemRequest body = some e →
      e.code = "VALIDATION_ERROR" ∧
      (e.message = "source must be 'shopify' or 'external'" ↔
        ¬ (body.index "source" = JVal.str "shopify" ∨
           body.index "source" = JVal.str "external"))) := by
  unfold validateCartItemRequest
  cases hsrc : body.index "source" with
  | str s =>
    simp only [assertString_str]
    by_cases h1 : s = "external"
    · subst h1
      cases hx : body.index "externalId" <;> simp [assertString]
    · by_cases h2 : s = "shopify"
      · subst h2
        cases hx : body.index "variantId" <;> simp [assertString]
      · simp [h1, h2]
  | _ => simp [assertString]

/-! ### Writer and string lemmas -/

theorem fresh_unwritten : Fx.fresh.Unwritten := ⟨rfl, rfl⟩

theorem call_unwritten (fx : Fx) (q : OutReq) (h : fx.Unwritten) :
    (fx.call q).Unwritten := h

theorem sendResponse_eq (fx : Fx) (code : Nat) (data : JVal)
    (err : Option ErrorInfo) (hfx : fx.Unwritten) (h1 : 100 ≤ code)
    (h2 : code ≤ 999) :
    sendResponse fx code data err =
      { w := { header := fx.w.header.Set "Content-Type" "application/json",
               status := some code,
               body := fx.w.body ++ [Chunk.envelope { data := data, error := err }] },
        calls := fx.calls, logs := fx.logs, panicked := false } := by
  obtain ⟨hs, hp⟩ := hfx
  have h1' : ¬ code < 100 := by omega
  have h2' : ¬ code > 999 := by omega
  simp [sendResponse, Fx.setHeader, Fx.WriteHeader, Fx.Write, hp, hs, h1', h2']

theorem hasPrefix_append (p t : String) : HasPrefix (p ++ t) p = true := by
  simp [HasPrefix]

theorem trimPrefix_append (p t : String) : TrimPrefix (p ++ t) p = t := by
  simp [TrimPrefix, HasPrefix]

theorem hasPrefix_iff (s p : String) :
    HasPrefix s p = true ↔ ∃ t, s = p ++ t := by
  constructor
  · intro h
    simp only [HasPrefix, List.isPrefixOf_iff_prefix] at h
    obtain ⟨t, ht⟩ := h
    refine ⟨String.mk t, ?_⟩
    apply String.ext
    simp [ht]
  · rintro ⟨t, rfl⟩
    exact hasPrefix_append p t

/-! ### Cart item add -/

theorem validate_error_code (body : GoMap) (e : ErrorInfo)
    (h : validateCartItemRequest body = some e) : e.code = "VALIDATION_ERROR" := by
  unfold validateCartItemRequest at h
  cases hsrc : body.index "source" <;> simp only [hsrc, assertString] at h <;>
    (split_ifs at h <;> (cases h; rfl))

theorem validate_shopify_message (body : GoMap) (e : ErrorInfo)
    (h : validateCartItemRequest body = some e)
    (hsrc : body.index "source" = JVal.str "shopify")
    (hvar : ∀ s, body.index "variantId" ≠ JVal.str s) :
    e.message = "variantId is required for shopify items" := by
  have hv : (assertString (body.index "variantId")).2 = false := by
    cases hx : body.index "variantId" <;> simp [assertString]
    exact hvar _ hx
  simp [validateCartItemRequest, hsrc, assertString_str, hv] at h
  rw [← h]

theorem handleAddCartItem_reject_eq (sprintV : JVal → String) (g : Gateway)
    (r : Request) (fx : Fx)
    (hbad : ∀ es, r.body.json = some (JVal.obj es) →
      validateCartItemRequest (some es) ≠ none) :
    ∃ e, handleAddCartItem sprintV g r fx =
        sendResponse fx 400 JVal.null (some e) ∧
      e.code = "VALIDATION_ERROR" ∧
      (∀ es, r.body.json = some (JVal.obj es) →
        GoMap.index (some es) "source" = JVal.str "shopify" →
        (∀ s, GoMap.index (some es) "variantId" ≠ JVal.str s) →
        e.message = "variantId is required for shopify items") := by
  unfold handleAddCartItem
  cases hj : r.body.json with
  | none =>
    simp only [decodeMap, hj]
    exact ⟨_, rfl, rfl, fun es h => by cases h⟩
  | some v =>
    cases v with
    | obj es =>
      have hne := hbad es hj
      cases hv : validateCartItemRequest (some es) with
      | none => exact absurd hv hne
      | some err =>
        simp only [decodeMap, hj, hv]
        refine ⟨err, rfl, validate_error_code _ _ hv, ?_⟩
        intro es' hes' hsrc hvar
        cases hes'
        exact validate_shopify_message _ _ hv hsrc hvar
    | null =>
      simp only [decodeMap, hj]
      cases hv : validateCartItemRequest none with
      | none => simp [validateCartItemRequest, GoMap.index, assertString] at hv
      | some err =>
        exact ⟨err, rfl, validate_error_code _ _ hv, fun es h => by cases h⟩
    | bool b =>
      simp only [decodeMap, hj]
      exact ⟨_, rfl, rfl, fun es h => by cases h⟩
    | num t =>
      simp only [decodeMap, hj]
      exact ⟨_, rfl, rfl, fun es h => by cases h⟩
    | str t =>
      simp only [decodeMap, hj]
      exact ⟨_, rfl, rfl, fun es h => by cases h⟩
    | arr xs =>
      simp only [decodeMap, hj]
      exact ⟨_, rfl, rfl, fun es h => by cases h⟩

/-- C2: a cart item add whose body does not decode as a JSON object, or
decodes as one that fails validateCartItemRequest, is answered by
handleAddCartItem with status 400 and an envelope with null data and error
code VALIDATION_ERROR, and no request is handed to the backend client; a
body with source "shopify" and no string variantId gets the message
"variantId is required for shopify items". -/
theorem handleAddCartItem_rejects (sprintV : JVal → String) (g : Gateway)
    (r : Request) (fx : Fx) (hfx : fx.Unwritten)
    (hbad : ∀ es, r.body.json = some (JVal.obj es) →
      validateCartItemRequest (some es) ≠ none) :
    (handleAddCartItem sprintV g r fx).w.status = some 400 ∧
    (handleAddCartItem sprintV g r fx).calls = fx.calls ∧
    (handleAddCartItem sprintV g r fx).panicked = false ∧
    (∃ e, (handleAddCartItem sprintV g r fx).w.body =
        fx.w.body ++ [Chunk.envelope { data := JVal.null, error := some e }] ∧
      e.code = "VALIDATION_ERROR" ∧
      (∀ es, r.body.json = some (JVal.obj es) →
        GoMap.index (some es) "source" = JVal.str "shopify" →
        (∀ s, GoMap.index (some es) "variantId" ≠ JVal.str s) →
        e.message = "variantId is required for shopify items")) := by
  obtain ⟨e, hE, hc, hm⟩ := handleAddCartItem_reject_eq sprintV g r fx hbad
  rw [hE, sendResponse_eq fx 400 _ _ hfx (by decide) (by decide)]
  exact ⟨rfl, rfl, rfl, e, rfl, hc, hm⟩

/-- Witness for C2: the body {"source":"shopify"} is rejected with 400 and
the variantId message. -/
theorem handleAddCartItem_rejects_witness :
    (handleAddCartItem sampleSprintV (sampleGateway "" unreachable)
        (sampleRequest "POST" "/api/gw/v1/cart/items" "" []
          (jsonBody "\x7b\"source\":\"shopify\"\x7d"
            (JVal.obj [("source", JVal.str "shopify")])))
        Fx.fresh).w.status = some 400 :=
  (handleAddCartItem_rejects sampleSprintV (sampleGateway "" unreachable)
    (sampleRequest "POST" "/api/gw/v1/cart/items" "" []
      (jsonBody "\x7b\"source\":\"shopify\"\x7d"
        (JVal.obj [("source", JVal.str "shopify")])))
    Fx.fresh fresh_unwritten
    (by
      intro es h
      cases h
      simp [validateCartItemRequest, GoMap.index, Entries.get, assertString])).1

/-! ### Path routing -/

theorem routeTarget_rest (g : Gateway) (t : String) :
    routeTarget g ("/rest/" ++ t) = g.postgrestURL ++ "/" ++ t := by
  have h1 : HasPrefix ("/rest/" ++ t) "/rest/" = true := hasPrefix_append _ _
  have h2 : "/rest/" ++ t = "/rest" ++ ("/" ++ t) := by
    rw [← String.append_assoc]; rfl
  simp only [routeTarget, h1, if_true]
  rw [h2, trimPrefix_append, String.append_assoc]

theorem routeTarget_api (g : Gateway) (t : String) :
    routeTarget g ("/api/" ++ t) = g.backendAPIURL ++ "/" ++ t := by
  have h0 : HasPrefix ("/api/" ++ t) "/rest/" = false := by
    simp [HasPrefix, List.isPrefixOf]
  have h1 : HasPrefix ("/api/" ++ t) "/api/" = true := hasPrefix_append _ _
  have h2 : "/api/" ++ t = "/api" ++ ("/" ++ t) := by
    rw [← String.append_assoc]; rfl
  simp only [routeTarget, h0, h1, if_true, Bool.false_eq_true, if_false]
  rw [h2, trimPrefix_append, String.append_assoc]

theorem routeTarget_mcp (g : Gateway) (t : String) :
    routeTarget g ("/mcp/" ++ t) =
      if t = "health" then g.mcpServiceURL ++ "/health"
      else g.mcpServiceURL ++ ("/mcp/" ++ t) := by
  have h0 : HasPrefix ("/mcp/" ++ t) "/rest/" = false := by
    simp [HasPrefix, List.isPrefixOf]
  have h1 : HasPrefix ("/mcp/" ++ t) "/api/" = false := by
    simp [HasPrefix, List.isPrefixOf]
  have h2 : HasPrefix ("/mcp/" ++ t) "/mcp/" = true := hasPrefix_append _ _
  have h3 : ("/mcp/" ++ t == "/mcp/health") = decide (t = "health") := by
    have hlit : "/mcp/health" = "/mcp/" ++ "health" := rfl
    by_cases ht : t = "health"
    · subst ht
      simp only [decide_True]
      exact beq_iff_eq.mpr rfl
    · have hne : "/mcp/" ++ t ≠ "/mcp/health" := by
        intro h
        apply ht
        rw [hlit] at h
        have hd := congrArg String.data h
        simp only [String.data_append, List.append_cancel_left_eq] at hd
        exact String.ext hd
      simp only [ht, decide_False]
      exact beq_eq_false_iff_ne.mpr hne
  simp only [routeTarget, h0, h1, h2, h3, if_true, Bool.false_eq_true, if_false,
    decide_eq_true_eq]

theorem routeTarget_worker (g : Gateway) (t : String) :
    routeTarget g ("/worker/" ++ t) = g.workerServiceURL ++ "/" ++ t := by
  have h0 : HasPrefix ("/worker/" ++ t) "/rest/" = false := by
    simp [HasPrefix, List.isPrefixOf]
  have h1 : HasPrefix ("/worker/" ++ t) "/api/" = false := by
    simp [HasPrefix, List.isPrefixOf]
  have h2 : HasPrefix ("/worker/" ++ t) "/mcp/" = false := by
    simp [HasPrefix, List.isPrefixOf]
  have h3 : HasPrefix ("/worker/" ++ t) "/worker/" = true := hasPrefix_append _ _
  have h4 : "/worker/" ++ t = "/worker" ++ ("/" ++ t) := by
    rw [← String.append_assoc]; rfl
  simp only [routeTarget, h0, h1, h2, h3, if_true, Bool.false_eq_true, if_false]
  rw [h4, trimPrefix_append, String.append_assoc]

theorem hasPrefix_false_of_forall (s p : String) (h : ∀ t, s ≠ p ++ t) :
    HasPrefix s p = false := by
  cases hp : HasPrefix s p with
  | false => rfl
  | true =>
    obtain ⟨t, ht⟩ := (hasPrefix_iff s p).mp hp
    exact absurd ht (h t)

theorem routeTarget_default (g : Gateway) (path : String)
    (h1 : ∀ t, path ≠ "/rest/" ++ t) (h2 : ∀ t, path ≠ "/api/" ++ t)
    (h3 : ∀ t, path ≠ "/mcp/" ++ t) (h4 : ∀ t, path ≠ "/worker/" ++ t) :
    routeTarget g path = g.postgrestURL ++ path := by
  simp [routeTarget, hasPrefix_false_of_forall _ _ h1,
    hasPrefix_false_of_forall _ _ h2, hasPrefix_false_of_forall _ _ h3,
    hasPrefix_false_of_forall _ _ h4]

theorem proxyHandler_eq (sprintV : JVal → String) (g : Gateway) (r : Request)
    (fx : Fx) (hf : HasPrefix r.path "/api/gw/v1/" = false) :
    proxyHandler sprintV g r fx =
      proxyToBackend g r
        (if r.rawQuery = "" then routeTarget g r.path
         else routeTarget g r.path ++ "?" ++ r.rawQuery) fx := by
  unfold proxyHandler
  by_cases hq : r.rawQuery = "" <;> simp [hf, hq]

/-- C3: for a path outside the façade prefix, proxyHandler proxies to the
resolved target with the raw query attached, and the resolved target is:
postgrestURL + the path without its leading "/rest" for "/rest/..." paths;
backendAPIURL + the path without its leading "/api" for "/api/..." paths;
mcpServiceURL + "/health" for exactly "/mcp/health" and mcpServiceURL + the
unchanged path for every other "/mcp/..." path; workerServiceURL + the
path without its leading "/worker" for "/worker/..." paths; postgrestURL +
the unchanged path otherwise. So /rest/foo?x=1 goes to
postgrestURL + "/foo?x=1". -/
theorem proxyHandler_target (sprintV : JVal → String) (g : Gateway)
    (r : Request) (fx : Fx) (hf : HasPrefix r.path "/api/gw/v1/" = false) :
    proxyHandler sprintV g r fx =
      proxyToBackend g r
        (if r.rawQuery = "" then routeTarget g r.path
         else routeTarget g r.path ++ "?" ++ r.rawQuery) fx ∧
    (∀ t, r.path = "/rest/" ++ t →
      routeTarget g r.path = g.postgrestURL ++ "/" ++ t) ∧
    (∀ t, r.path = "/api/" ++ t →
      routeTarget g r.path = g.backendAPIURL ++ "/" ++ t) ∧
    (r.path = "/mcp/health" →
      routeTarget g r.path = g.mcpServiceURL ++ "/health") ∧
    (∀ t, r.path = "/mcp/" ++ t → r.path ≠ "/mcp/health" →
      routeTarget g r.path = g.mcpServiceURL ++ r.path) ∧
    (∀ t, r.path = "/worker/" ++ t →
      routeTarget g r.path = g.workerServiceURL ++ "/" ++ t) ∧
    ((∀ t, r.path ≠ "/rest/" ++ t) → (∀ t, r.path ≠ "/api/" ++ t) →
      (∀ t, r.path ≠ "/mcp/" ++ t) → (∀ t, r.path ≠ "/worker/" ++ t) →
      routeTarget g r.path = g.postgrestURL ++ r.path) ∧
    (r.path = "/rest/foo" → r.rawQuery = "x=1" →
      proxyHandler sprintV g r fx =
        proxyToBackend g r (g.postgrestURL ++ "/foo?x=1") fx) := by
  refine ⟨proxyHandler_eq sprintV g r fx hf, ?_, ?_, ?_, ?_, ?_, ?_, ?_⟩
  · intro t ht
    rw [ht, routeTarget_rest]
  · intro t ht
    rw [ht, routeTarget_api]
  · intro ht
    have h := routeTarget_mcp g "health"
    rw [if_pos rfl] at h
    rw [ht]
    exact h
  · intro t ht hne
    have hth : t ≠ "health" := by
      intro h
      apply hne
      rw [ht, h]
      rfl
    rw [ht, routeTarget_mcp, if_neg hth]
  · intro t ht
    rw [ht, routeTarget_worker]
  · intro h1 h2 h3 h4
    exact routeTarget_default g r.path h1 h2 h3 h4
  · intro hp hq
    rw [proxyHandler_eq sprintV g r fx hf, hq, hp]
    have h := routeTarget_rest g "foo"
    have e1 : "/rest/" ++ "foo" = "/rest/foo" := rfl
    rw [e1] at h
    rw [if_neg (by decide), h, String.append_assoc, String.append_assoc,
      String.append_assoc]
    rfl

/-- Witness for C3: /rest/foo?x=1 is proxied to http://pg/foo?x=1. -/
theorem proxyHandler_target_witness :
    proxyHandler sampleSprintV (sampleGateway "" unreachable)
        (sampleRequest "GET" "/rest/foo" "x=1" [("x", ["1"])] noBody) Fx.fresh =
      proxyToBackend (sampleGateway "" unreachable)
        (sampleRequest "GET" "/rest/foo" "x=1" [("x", ["1"])] noBody)
        ("http://pg" ++ "/foo?x=1") Fx.fresh :=
  (proxyHandler_target sampleSprintV (sampleGateway "" unreachable)
    (sampleRequest "GET" "/rest/foo" "x=1" [("x", ["1"])] noBody) Fx.fresh
    (by decide)).2.2.2.2.2.2.2 rfl rfl

/-! ### Path-parameterized façade handlers -/

theorem facade_path_part3 (t : String) :
    (Split ("/api/gw/v1/" ++ t) '/').getD 3 "" = "v1" ∧
    4 ≤ (Split ("/api/gw/v1/" ++ t) '/').length := by
  have hd : ("/api/gw/v1/" ++ t).data =
      '/' :: 'a' :: 'p' :: 'i' :: '/' :: 'g' :: 'w' :: '/' :: 'v' :: '1' :: '/' ::
        t.data := by
    rw [String.data_append]; rfl
  unfold Split
  rw [hd]
  cases hs : splitChars '/' t.data with
  | nil => simp [splitChars, hs]
  | cons p ps => simp [splitChars, hs]

/-- C4 (the code at the failing inputs): for the inbound paths
/api/gw/v1/deposit-sessions/s1, /api/gw/v1/deposit-sessions/s1/checkout and
/api/gw/v1/orders/o1 the three handlers call the backend with the path
segment at index 3, which is "v1", in place of the identifier. -/
theorem pathParam_handlers_forward_v1 :
    (handleGetDepositSession sampleSprintV
        (sampleGateway "" (replyWith 200 noBody))
        (sampleRequest "GET" "/api/gw/v1/deposit-sessions/s1" "" [] noBody)
        Fx.fresh).calls.map (fun q => q.url) =
      ["http://be/api/v1/deposit-sessions/v1"] ∧
    (handleDepositSessionCheckout sampleSprintV
        (sampleGateway "" (replyWith 200 noBody))
        (sampleRequest "POST" "/api/gw/v1/deposit-sessions/s1/checkout" "" []
          noBody)
        Fx.fresh).calls.map (fun q => q.url) =
      ["http://be/api/v1/deposit-sessions/v1/checkout"] ∧
    (handleGetOrderStatus sampleSprintV
        (sampleGateway "" (replyWith 200 noBody))
        (sampleRequest "GET" "/api/gw/v1/orders/o1" "" [] noBody)
        Fx.fresh).calls.map (fun q => q.url) =
      ["http://be/api/v1/orders/v1"] := by
  decide

/-- Under the façade prefix the order-status handler does not depend on
the rest of the path: the identifier never reaches the backend URL. -/
theorem handleGetOrderStatus_ignores_id (sprintV : JVal → String)
    (g : Gateway) (r : Request) (fx : Fx) (t t' : String) :
    handleGetOrderStatus sprintV g { r with path := "/api/gw/v1/" ++ t } fx =
      handleGetOrderStatus sprintV g { r with path := "/api/gw/v1/" ++ t' } fx := by
  have h1 := facade_path_part3 t
  have h2 := facade_path_part3 t'
  have l1 : ¬ (Split ("/api/gw/v1/" ++ t) '/').length < 4 := by omega
  have l2 : ¬ (Split ("/api/gw/v1/" ++ t') '/').length < 4 := by omega
  simp only [handleGetOrderStatus, h1.1, h2.1, l1, l2, if_false]

/-! ### Authentication -/

theorem authMiddleware_reject_eq (g : Gateway) (next : Handler) (r : Request)
    (fx : Fx) (hk : g.apiKey ≠ "") (hh : r.header.Get "X-API-Key" ≠ g.apiKey)
    (hq : r.query.Get "api_key" ≠ g.apiKey) (hfx : fx.Unwritten) :
    authMiddleware g next r fx = unauthorizedOn fx := by
  obtain ⟨hs, hp⟩ := hfx
  unfold authMiddleware unauthorizedOn
  by_cases he : r.header.Get "X-API-Key" = ""
  · simp [hk, he, hq, Fx.setHeader, Fx.WriteHeader, Fx.Write, hs, hp]
  · simp [hk, he, hh, Fx.setHeader, Fx.WriteHeader, Fx.Write, hs, hp]

/-- C5: with a non-empty configured key, a request whose X-API-Key header
and api_key query parameter both differ from it (absent ones included) is
answered 401 with the JSON body {"error":"Unauthorized: Invalid or missing
API key"} whatever the downstream handler is; with an empty configured
key every request goes to the downstream handler. -/
theorem authMiddleware_unauthorized (g : Gateway) (next : Handler)
    (r : Request) (fx : Fx) :
    (g.apiKey ≠ "" → r.header.Get "X-API-Key" ≠ g.apiKey →
      r.query.Get "api_key" ≠ g.apiKey → fx.Unwritten →
      authMiddleware g next r fx = unauthorizedOn fx) ∧
    (g.apiKey = "" → authMiddleware g next r fx = next r fx) := by
  refine ⟨authMiddleware_reject_eq g next r fx, ?_⟩
  intro hk
  simp [authMiddleware, hk]

/-- Witness for C5: a keyless request is rejected when the key is "secret"
and passed on when no key is configured. -/
theorem authMiddleware_unauthorized_witness :
    authMiddleware (sampleGateway "secret" unreachable) sampleNext
        (sampleRequest "GET" "/rest/foo" "" [] noBody) Fx.fresh =
      unauthorizedOn Fx.fresh ∧
    authMiddleware (sampleGateway "" unreachable) sampleNext
        (sampleRequest "GET" "/rest/foo" "api_key=zzz" [("api_key", ["zzz"])]
          noBody) Fx.fresh =
      sampleNext
        (sampleRequest "GET" "/rest/foo" "api_key=zzz" [("api_key", ["zzz"])]
          noBody) Fx.fresh :=
  ⟨(authMiddleware_unauthorized (sampleGateway "secret" unreachable) sampleNext
      (sampleRequest "GET" "/rest/foo" "" [] noBody) Fx.fresh).1
      (by decide) (by decide) (by decide) fresh_unwritten,
   (authMiddleware_unauthorized (sampleGateway "" unreachable) sampleNext
      (sampleRequest "GET" "/rest/foo" "api_key=zzz" [("api_key", ["zzz"])]
        noBody) Fx.fresh).2 rfl⟩

/-- C6 (counterexample): with key "secret", a request carrying the right
key in the api_key query parameter and a wrong X-API-Key header is
answered 401 and does not reach the downstream handler. -/
theorem authMiddleware_query_match_rejected :
    (sampleGateway "secret" unreachable).apiKey ≠ "" ∧
    rightQueryWrongHeader.query.Get "api_key" =
      (sampleGateway "secret" unreachable).apiKey ∧
    rightQueryWrongHeader.header.Get "X-API-Key" = "wrong" ∧
    (authMiddleware (sampleGateway "secret" unreachable) sampleNext
        rightQueryWrongHeader Fx.fresh).w.status = some 401 ∧
    (sampleNext rightQueryWrongHeader Fx.fresh).w.status = some 204 := by
  decide

/-- C6 (amended): with a non-empty configured key, a request is passed to
the downstream handler when its X-API-Key header equals the key, or when
that header is empty or absent and its api_key query parameter equals the
key; the query parameter is consulted only when the header is empty or
absent: a non-empty header that differs from the key is answered 401
whatever the query parameter holds, and so is an empty or absent header
with a query parameter that differs from the key. -/
theorem authMiddleware_accepts (g : Gateway) (next : Handler) (r : Request)
    (fx : Fx) (hk : g.apiKey ≠ "") :
    ((r.header.Get "X-API-Key" = g.apiKey ∨
        (r.header.Get "X-API-Key" = "" ∧ r.query.Get "api_key" = g.apiKey)) →
      authMiddleware g next r fx = next r fx) ∧
    (r.header.Get "X-API-Key" ≠ "" → r.header.Get "X-API-Key" ≠ g.apiKey →
      fx.Unwritten → authMiddleware g next r fx = unauthorizedOn fx) ∧
    (r.header.Get "X-API-Key" = "" → r.query.Get "api_key" ≠ g.apiKey →
      fx.Unwritten → authMiddleware g next r fx = unauthorizedOn fx) := by
  refine ⟨?_, ?_, ?_⟩
  · intro hm
    unfold authMiddleware
    rcases hm with hh | ⟨he, hq⟩
    · simp [hk, hh]
    · simp [hk, he, hq]
  · intro hne hh hfx
    obtain ⟨hs, hp⟩ := hfx
    unfold authMiddleware unauthorizedOn
    simp [hk, hne, hh, Fx.setHeader, Fx.WriteHeader, Fx.Write, hs, hp]
  · intro he hq hfx
    obtain ⟨hs, hp⟩ := hfx
    unfold authMiddleware unauthorizedOn
    simp [hk, he, hq, Fx.setHeader, Fx.WriteHeader, Fx.Write, hs, hp]

/-- Witness for C6 (amended): the key in the query parameter alone is
accepted, and the same query parameter behind a wrong header is answered
401. -/
theorem authMiddleware_accepts_witness :
    authMiddleware (sampleGateway "secret" unreachable) sampleNext
        (sampleRequest "GET" "/rest/foo" "api_key=secret"
          [("api_key", ["secret"])] noBody) Fx.fresh =
      sampleNext
        (sampleRequest "GET" "/rest/foo" "api_key=secret"
          [("api_key", ["secret"])] noBody) Fx.fresh ∧
    authMiddleware (sampleGateway "secret" unreachable) sampleNext
        rightQueryWrongHeader Fx.fresh = unauthorizedOn Fx.fresh :=
  ⟨(authMiddleware_accepts (sampleGateway "secret" unreachable) sampleNext
      (sampleRequest "GET" "/rest/foo" "api_key=secret" [("api_key", ["secret"])]
        noBody) Fx.fresh (by decide)).1 (Or.inr ⟨by decide, by decide⟩),
   (authMiddleware_accepts (sampleGateway "secret" unreachable) sampleNext
      rightQueryWrongHeader Fx.fresh (by decide)).2.1 (by decide) (by decide)
      fresh_unwritten⟩

/-! ### CORS pre-flight -/

theorem corsMiddleware_options (g : Gateway) (next : Handler) (r : Request)
    (h : r.method = "OPTIONS") :
    corsMiddleware g next r Fx.fresh = preflightAnswer := by
  unfold corsMiddleware
  simp only [h]
  rfl

/-- C7: an OPTIONS request through the full chain, for every path, key
configuration and supplied key, gets status 200, an empty body and exactly
the four CORS headers; no outbound call is made and no log record is
written; the same holds whatever handler stands behind the CORS stage, so
none of the later stages runs. -/
theorem options_preflight (sprintV : JVal → String) (g : Gateway)
    (r : Request) (h : r.method = "OPTIONS") :
    handler sprintV g r Fx.fresh = preflightAnswer ∧
    (∀ next : Handler, corsMiddleware g next r Fx.fresh = preflightAnswer) ∧
    preflightAnswer.w.status = some 200 ∧
    preflightAnswer.w.body = [] ∧
    preflightAnswer.w.header.Get "Access-Control-Allow-Origin" = "*" ∧
    preflightAnswer.calls = [] ∧
    preflightAnswer.logs = [] :=
  ⟨corsMiddleware_options g _ r h, fun next => corsMiddleware_options g next r h,
    rfl, rfl, by decide, rfl, rfl⟩

/-- Witness for C7: an OPTIONS request without a key, with a key
configured. -/
theorem options_preflight_witness :
    handler sampleSprintV (sampleGateway "secret" unreachable)
        (sampleRequest "OPTIONS" "/api/gw/v1/cart" "" [] noBody) Fx.fresh =
      preflightAnswer :=
  (options_preflight sampleSprintV (sampleGateway "secret" unreachable)
    (sampleRequest "OPTIONS" "/api/gw/v1/cart" "" [] noBody) rfl).1

/-! ### Deposit-session create -/

theorem entries_get_set (k k' : String) (v : JVal) (es : Entries) :
    Entries.get k' (Entries.set k v es) =
      if k = k' then some v else Entries.get k' es := by
  induction es with
  | nil => simp [Entries.set, Entries.get]
  | cons e rest ih =>
    obtain ⟨k0, v0⟩ := e
    by_cases h0 : k0 = k
    · subst h0
      by_cases h1 : k0 = k' <;> simp [Entries.set, Entries.get, h1]
    · by_cases h1 : k = k'
      · subst h1
        simp [Entries.set, Entries.get, h0, ih]
      · by_cases h2 : k0 = k'
        · subst h2
          simp [Entries.set, Entries.get, h0, h1]
        · simp [Entries.set, Entries.get, h0, h1, h2, ih]

theorem assertString_cases (v : JVal) :
    (∃ s, v = JVal.str s ∧ assertString v = (s, true)) ∨
    (isString v = false ∧ isNonEmptyString v = false ∧
      assertString v = ("", false)) := by
  cases v <;> simp [assertString, isString, isNonEmptyString]

theorem assertSlice_cases (v : JVal) :
    (∃ xs, v = JVal.arr xs ∧ assertSlice v = (xs, true)) ∨
    (isArray v = false ∧ assertSlice v = ([], false)) := by
  cases v <;> simp [assertSlice, isArray]

theorem get_reconcile_step (K k : String) (c1 c2 : Bool) (v1 v2 : JVal)
    (d : Entries) :
    Entries.get k
        (if c1 = true then Entries.set K v1 d
         else if c2 = true then Entries.set K v2 d else d) =
      if K = k then
        (if c1 = true then some v1 else if c2 = true then some v2
         else Entries.get k d)
      else Entries.get k d := by
  cases c1 <;> cases c2 <;> simp [entries_get_set]

theorem assertString_link (v : JVal) (x : String) (ok : Bool)
    (h : assertString v = (x, ok)) :
    isString v = ok ∧ isNonEmptyString v = (ok && x != "") ∧
      (ok = true → v = JVal.str x) := by
  cases v <;> simp [assertString] at h <;> obtain ⟨h1, h2⟩ := h <;> subst h1 <;>
    subst h2 <;> simp [isString, isNonEmptyString]

theorem assertSlice_link (v : JVal) (xs : List JVal) (ok : Bool)
    (h : assertSlice v = (xs, ok)) :
    isArray v = ok ∧ (ok = true → v = JVal.arr xs) := by
  cases v <;> simp [assertSlice] at h <;> obtain ⟨h1, h2⟩ := h <;> subst h1 <;>
    subst h2 <;> simp [isArray]

theorem depositSessionData_get (m : GoMap) (s k : String) :
    Entries.get k (depositSessionData m s) = depositSessionContract m s k := by
  unfold depositSessionData depositSessionContract reconciled
  rcases h1 : assertString (m.index "checkout_url") with ⟨x1, ok1⟩
  rcases h2 : assertString (m.index "checkoutUrl") with ⟨x2, ok2⟩
  rcases h3 : assertSlice (m.index "draft_order_ids") with ⟨x3, ok3⟩
  rcases h4 : assertSlice (m.index "draftOrderIds") with ⟨x4, ok4⟩
  rcases h5 : assertString (m.index "first_draft_order_id") with ⟨x5, ok5⟩
  rcases h6 : assertString (m.index "firstDraftOrderId") with ⟨x6, ok6⟩
  rcases h7 : assertSlice (m.index "payment_amounts") with ⟨x7, ok7⟩
  rcases h8 : assertSlice (m.index "paymentAmounts") with ⟨x8, ok8⟩
  obtain ⟨-, n1, e1⟩ := assertString_link _ _ _ h1
  obtain ⟨-, n2, e2⟩ := assertString_link _ _ _ h2
  obtain ⟨n3, e3⟩ := assertSlice_link _ _ _ h3
  obtain ⟨n4, e4⟩ := assertSlice_link _ _ _ h4
  obtain ⟨n5, -, e5⟩ := assertString_link _ _ _ h5
  obtain ⟨n6, -, e6⟩ := assertString_link _ _ _ h6
  obtain ⟨n7, e7⟩ := assertSlice_link _ _ _ h7
  obtain ⟨n8, e8⟩ := assertSlice_link _ _ _ h8
  simp only [n1, n2, n3, n4, n5, n6, n7, n8, get_reconcile_step]
  by_cases k1 : k = "payment_amounts"
  · subst k1
    cases ok7 <;> cases ok8 <;> simp_all [Entries.get]
  by_cases k2 : k = "first_draft_order_id"
  · subst k2
    cases ok5 <;> cases ok6 <;> simp_all [Entries.get]
  by_cases k3 : k = "draft_order_ids"
  · subst k3
    cases ok3 <;> cases ok4 <;> simp_all [Entries.get]
  by_cases k4 : k = "checkout_url"
  · subst k4
    cases ok1 <;> cases ok2 <;> simp_all [Entries.get]
  by_cases k5 : k = "session_id"
  · subst k5
    simp [Entries.get]
  by_cases k6 : k = "deposit_session_url"
  · subst k6
    simp [Entries.get]
  have c1 : ¬ "payment_amounts" = k := fun h => k1 h.symm
  have c2 : ¬ "first_draft_order_id" = k := fun h => k2 h.symm
  have c3 : ¬ "draft_order_ids" = k := fun h => k3 h.symm
  have c4 : ¬ "checkout_url" = k := fun h => k4 h.symm
  have c5 : ¬ "session_id" = k := fun h => k5 h.symm
  have c6 : ¬ "deposit_session_url" = k := fun h => k6 h.symm
  simp [Entries.get, k1, k2, k3, k4, k5, k6, c1, c2, c3, c4, c5, c6]

theorem handleCreateDepositSession_success_eq (g : Gateway) (r : Request)
    (fx : Fx) (bes : Entries) (c : String) (resp : BackendResp)
    (hbody : r.body.json = some (JVal.obj bes))
    (hcart : GoMap.index (some bes) "cartId" = JVal.str c)
    (hcall : g.client (createSessionRequest g bes) = DoResult.response resp)
    (hok : resp.statusCode.val < 400) :
    handleCreateDepositSession g r fx =
      if (assertString ((decodeMapLax resp.body).index "session_id")).2 = true then
        sendResponse (fx.call (createSessionRequest g bes)) 200
          (JVal.obj (depositSessionData (decodeMapLax resp.body)
            (assertString ((decodeMapLax resp.body).index "session_id")).1)) none
      else
        sendResponse (fx.call (createSessionRequest g bes)) 200
          (decodeMapLax resp.body).toJSON none := by
  have hreq : ({ method := "POST",
                 url := g.backendAPIURL ++ "/api/v1/deposit-sessions",
                 header := Header.Set [] "Content-Type" "application/json",
                 body := OutBody.json (GoMap.toJSON (some bes)) } : OutReq) =
      createSessionRequest g bes := rfl
  have hge : ¬ resp.statusCode.val ≥ 400 := by omega
  unfold handleCreateDepositSession
  simp only [decodeMap, hbody, hcart, assertString_str, Bool.not_true,
    Bool.false_eq_true, if_false, hreq, hcall, hge]
  cases hs : (assertString ((decodeMapLax resp.body).index "session_id")).2 <;>
    simp [hs]

/-- C8 (amended): after a successful (status < 400) backend response to
deposit-session create, the gateway answers 200 and: when the backend body
is a JSON object with a string session_id s, the data is an object that
holds session_id = s, deposit_session_url = "/deposit-session/" + s and,
under the snake_case name only, for checkout_url the first of the
snake_case and camelCase backend values that is a non-empty string, for
draft_order_ids and payment_amounts the first that is an array, for
first_draft_order_id the first that is a string, and no other key; when the
backend body is a JSON object without a string session_id, the data is that
object unchanged; when the backend body is not a JSON object, the data is
null. -/
theorem handleCreateDepositSession_success (g : Gateway) (r : Request)
    (fx : Fx) (bes : Entries) (c : String) (resp : BackendResp)
    (hfx : fx.Unwritten)
    (hbody : r.body.json = some (JVal.obj bes))
    (hcart : GoMap.index (some bes) "cartId" = JVal.str c)
    (hcall : g.client (createSessionRequest g bes) = DoResult.response resp)
    (hok : resp.statusCode.val < 400) :
    (handleCreateDepositSession g r fx).w.status = some 200 ∧
    (handleCreateDepositSession g r fx).calls =
      fx.calls ++ [createSessionRequest g bes] ∧
    (∀ m s, resp.body.json = some (JVal.obj m) →
      GoMap.index (some m) "session_id" = JVal.str s →
      ∃ d, (handleCreateDepositSession g r fx).w.body =
          fx.w.body ++ [Chunk.envelope { data := JVal.obj d, error := none }] ∧
        ∀ k, Entries.get k d = depositSessionContract (some m) s k) ∧
    (∀ m, resp.body.json = some (JVal.obj m) →
      (∀ s, GoMap.index (some m) "session_id" ≠ JVal.str s) →
      (handleCreateDepositSession g r fx).w.body =
        fx.w.body ++ [Chunk.envelope { data := JVal.obj m, error := none }]) ∧
    ((∀ m, resp.body.json ≠ some (JVal.obj m)) →
      (handleCreateDepositSession g r fx).w.body =
        fx.w.body ++ [Chunk.envelope { data := JVal.null, error := none }]) := by
  have hu := call_unwritten fx (createSessionRequest g bes) hfx
  rw [handleCreateDepositSession_success_eq g r fx bes c resp hbody hcart hcall hok]
  refine ⟨?_, ?_, ?_, ?_, ?_⟩
  · split_ifs <;> rw [sendResponse_eq _ 200 _ _ hu (by decide) (by decide)]
  · split_ifs <;> rw [sendResponse_eq _ 200 _ _ hu (by decide) (by decide)] <;> rfl
  · intro m s hm hs
    have hd : decodeMapLax resp.body = some m := by
      simp [decodeMapLax, decodeMap, hm]
    rw [hd, hs, assertString_str, if_pos rfl,
      sendResponse_eq _ 200 _ _ hu (by decide) (by decide)]
    exact ⟨_, rfl, fun k => depositSessionData_get (some m) s k⟩
  · intro m hm hs
    have hd : decodeMapLax resp.body = some m := by
      simp [decodeMapLax, decodeMap, hm]
    have hf : (assertString (GoMap.index (some m) "session_id")).2 = false := by
      cases hx : GoMap.index (some m) "session_id" <;> simp [assertString]
      exact hs _ hx
    rw [hd, hf, if_neg (by decide),
      sendResponse_eq _ 200 _ _ hu (by decide) (by decide)]
    rfl
  · intro hm
    have hd : decodeMapLax resp.body = none := by
      unfold decodeMapLax decodeMap
      cases hj : resp.body.json with
      | none => rfl
      | some v =>
        cases v with
        | obj es => exact absurd hj (hm es)
        | _ => rfl
    rw [hd]
    have hf : (assertString (GoMap.index none "session_id")).2 = false := rfl
    rw [hf, if_neg (by decide),
      sendResponse_eq _ 200 _ _ hu (by decide) (by decide)]
    rfl

/-- C8 (counterexample): for the backend JSON
{"session_id":"s1","checkoutUrl":""} the claim puts checkout_url = "" in
the data, while the gateway's data has no checkout_url; and for the backend
JSON ["a"], which has no session_id, the data is null and not that JSON. -/
theorem handleCreateDepositSession_counterexample :
    checkoutUrlAsClaimed (some emptyCamelCheckout) = some (JVal.str "") ∧
    Entries.get "checkout_url" (depositSessionData (some emptyCamelCheckout) "s1") =
      none ∧
    (handleCreateDepositSession
        (sampleGateway "" (replyWith 200
          (jsonBody "" (JVal.obj emptyCamelCheckout))))
        createSessionSample Fx.fresh).w.body =
      [Chunk.envelope
        { data := JVal.obj
            [("deposit_session_url", JVal.str "/deposit-session/s1"),
             ("session_id", JVal.str "s1")],
          error := none }] ∧
    (handleCreateDepositSession
        (sampleGateway "" (replyWith 200
          (jsonBody "[\"a\"]" (JVal.arr [JVal.str "a"]))))
        createSessionSample Fx.fresh).w.body =
      [Chunk.envelope { data := JVal.null, error := none }] :=
  ⟨rfl, rfl, rfl, rfl⟩

/-- Witness for C8 (amended): the backend JSON
{"session_id":"s1","checkoutUrl":"http://x"} yields checkout_url
"http://x" and deposit_session_url "/deposit-session/s1". -/
theorem handleCreateDepositSession_success_witness :
    ∃ d, (handleCreateDepositSession
          (sampleGateway "" (replyWith 200 (jsonBody "" (JVal.obj camelCheckout))))
          createSessionSample Fx.fresh).w.body =
        Fx.fresh.w.body ++ [Chunk.envelope { data := JVal.obj d, error := none }] ∧
      Entries.get "checkout_url" d = some (JVal.str "http://x") ∧
      Entries.get "deposit_session_url" d = some (JVal.str "/deposit-session/s1") := by
  obtain ⟨d, hb, hk⟩ :=
    (handleCreateDepositSession_success
      (sampleGateway "" (replyWith 200 (jsonBody "" (JVal.obj camelCheckout))))
      createSessionSample Fx.fresh [("cartId", JVal.str "c1")] "c1"
      { statusCode := 200, header := [],
        body := jsonBody "" (JVal.obj camelCheckout) }
      fresh_unwritten rfl rfl rfl (by decide)).2.2.1 camelCheckout "s1" rfl rfl
  exact ⟨d, hb, by rw [hk]; rfl, by rw [hk]; rfl⟩

/-! ### Error contract of the façade handlers -/

theorem handleAddCartItem_outcome (sprintV : JVal → String) (g : Gateway)
    (r : Request) (fx : Fx) :
    FacadeOutcome g fx (handleAddCartItem sprintV g r fx) := by
  unfold handleAddCartItem
  dsimp only
  repeat' split
  all_goals
    first
    | exact FacadeOutcome.rejected _ rfl
    | exact FacadeOutcome.rejected _ (validate_error_code _ _ ‹_›)
    | exact FacadeOutcome.aborted _ _ ‹_›
    | exact FacadeOutcome.unreached _ _ ‹_›
    | exact FacadeOutcome.backendError _ _ _ ‹_› ‹_›
    | exact FacadeOutcome.success _ _ _ ‹_› ‹_›

theorem handleGetCart_outcome (sprintV : JVal → String) (g : Gateway)
    (r : Request) (fx : Fx) :
    FacadeOutcome g fx (handleGetCart sprintV g r fx) := by
  unfold handleGetCart
  dsimp only
  repeat' split
  all_goals
    first
    | exact FacadeOutcome.rejected _ rfl
    | exact FacadeOutcome.aborted _ _ ‹_›
    | exact FacadeOutcome.unreached _ _ ‹_›
    | exact FacadeOutcome.backendError _ _ _ ‹_› ‹_›
    | exact FacadeOutcome.success _ _ _ ‹_› ‹_›

theorem handleUpdateCartItem_outcome (sprintV : JVal → String) (g : Gateway)
    (r : Request) (fx : Fx) :
    FacadeOutcome g fx (handleUpdateCartItem sprintV g r fx) := by
  unfold handleUpdateCartItem
  dsimp only
  repeat' split
  all_goals
    first
    | exact FacadeOutcome.rejected _ rfl
    | exact FacadeOutcome.aborted _ _ ‹_›
    | exact FacadeOutcome.unreached _ _ ‹_›
    | exact FacadeOutcome.backendError _ _ _ ‹_› ‹_›
    | exact FacadeOutcome.success _ _ _ ‹_› ‹_›

theorem handleRemoveCartItem_outcome (sprintV : JVal → String) (g : Gateway)
    (r : Request) (fx : Fx) :
    FacadeOutcome g fx (handleRemoveCartItem sprintV g r fx) := by
  unfold handleRemoveCartItem
  dsimp only
  repeat' split
  all_goals
    first
    | exact FacadeOutcome.rejected _ rfl
    | exact FacadeOutcome.aborted _ _ ‹_›
    | exact FacadeOutcome.unreached _ _ ‹_›
    | exact FacadeOutcome.backendError _ _ _ ‹_› ‹_›
    | exact FacadeOutcome.success _ _ _ ‹_› ‹_›

theorem handleCheckout_outcome (sprintV : JVal → String) (g : Gateway)
    (r : Request) (fx : Fx) :
    FacadeOutcome g fx (handleCheckout sprintV g r fx) := by
  unfold handleCheckout
  dsimp only
  repeat' split
  all_goals
    first
    | exact FacadeOutcome.rejected _ rfl
    | exact FacadeOutcome.aborted _ _ ‹_›
    | exact FacadeOutcome.unreached _ _ ‹_›
    | exact FacadeOutcome.backendError _ _ _ ‹_› ‹_›
    | exact FacadeOutcome.success _ _ _ ‹_› ‹_›

theorem handleCreateDepositSession_outcome (g : Gateway)
    (r : Request) (fx : Fx) :
    FacadeOutcome g fx (handleCreateDepositSession g r fx) := by
  unfold handleCreateDepositSession
  dsimp only
  repeat' split
  all_goals
    first
    | exact FacadeOutcome.rejected _ rfl
    | exact FacadeOutcome.aborted _ _ ‹_›
    | exact FacadeOutcome.unreached _ _ ‹_›
    | exact FacadeOutcome.backendError _ _ _ ‹_› ‹_›
    | exact FacadeOutcome.success _ _ _ ‹_› ‹_›

theorem handleGetDepositSession_outcome (sprintV : JVal → String) (g : Gateway)
    (r : Request) (fx : Fx) :
    FacadeOutcome g fx (handleGetDepositSession sprintV g r fx) := by
  unfold handleGetDepositSession
  dsimp only
  repeat' split
  all_goals
    first
    | exact FacadeOutcome.rejected _ rfl
    | exact FacadeOutcome.aborted _ _ ‹_›
    | exact FacadeOutcome.unreached _ _ ‹_›
    | exact FacadeOutcome.backendError _ _ _ ‹_› ‹_›
    | exact FacadeOutcome.success _ _ _ ‹_› ‹_›

theorem handleDepositSessionCheckout_outcome (sprintV : JVal → String) (g : Gateway)
    (r : Request) (fx : Fx) :
    FacadeOutcome g fx (handleDepositSessionCheckout sprintV g r fx) := by
  unfold handleDepositSessionCheckout
  dsimp only
  repeat' split
  all_goals
    first
    | exact FacadeOutcome.rejected _ rfl
    | exact FacadeOutcome.aborted _ _ ‹_›
    | exact FacadeOutcome.unreached _ _ ‹_›
    | exact FacadeOutcome.backendError _ _ _ ‹_› ‹_›
    | exact FacadeOutcome.success _ _ _ ‹_› ‹_›

theorem handleGetDepositPlans_outcome (sprintV : JVal → String) (g : Gateway)
    (r : Request) (fx : Fx) :
    FacadeOutcome g fx (handleGetDepositPlans sprintV g r fx) := by
  unfold handleGetDepositPlans
  dsimp only
  repeat' split
  all_goals
    first
    | exact FacadeOutcome.rejected _ rfl
    | exact FacadeOutcome.aborted _ _ ‹_›
    | exact FacadeOutcome.unreached _ _ ‹_›
    | exact FacadeOutcome.backendError _ _ _ ‹_› ‹_›
    | exact FacadeOutcome.success _ _ _ ‹_› ‹_›

theorem handleGetDefaultDepositPlan_outcome (sprintV : JVal → String) (g : Gateway)
    (r : Request) (fx : Fx) :
    FacadeOutcome g fx (handleGetDefaultDepositPlan sprintV g r fx) := by
  unfold handleGetDefaultDepositPlan
  dsimp only
  repeat' split
  all_goals
    first
    | exact FacadeOutcome.rejected _ rfl
    | exact FacadeOutcome.aborted _ _ ‹_›
    | exact FacadeOutcome.unreached _ _ ‹_›
    | exact FacadeOutcome.backendError _ _ _ ‹_› ‹_›
    | exact FacadeOutcome.success _ _ _ ‹_› ‹_›

theorem handleGetDepositPlan_outcome (sprintV : JVal → String) (g : Gateway)
    (r : Request) (fx : Fx) :
    FacadeOutcome g fx (handleGetDepositPlan sprintV g r fx) := by
  unfold handleGetDepositPlan
  dsimp only
  repeat' split
  all_goals
    first
    | exact FacadeOutcome.rejected _ rfl
    | exact FacadeOutcome.aborted _ _ ‹_›
    | exact FacadeOutcome.unreached _ _ ‹_›
    | exact FacadeOutcome.backendError _ _ _ ‹_› ‹_›
    | exact FacadeOutcome.success _ _ _ ‹_› ‹_›

theorem handleGetOrderStatus_outcome (sprintV : JVal → String) (g : Gateway)
    (r : Request) (fx : Fx) :
    FacadeOutcome g fx (handleGetOrderStatus sprintV g r fx) := by
  unfold handleGetOrderStatus
  dsimp only
  repeat' split
  all_goals
    first
    | exact FacadeOutcome.rejected _ rfl
    | exact FacadeOutcome.aborted _ _ ‹_›
    | exact FacadeOutcome.unreached _ _ ‹_›
    | exact FacadeOutcome.backendError _ _ _ ‹_› ‹_›
    | exact FacadeOutcome.success _ _ _ ‹_› ‹_›

theorem facade_outcome (sprintV : JVal → String) (g : Gateway) (f : Facade)
    (r : Request) (fx : Fx) :
    FacadeOutcome g fx (f.run sprintV g r fx) := by
  cases f
  · exact handleAddCartItem_outcome sprintV g r fx
  · exact handleGetCart_outcome sprintV g r fx
  · exact handleUpdateCartItem_outcome sprintV g r fx
  · exact handleRemoveCartItem_outcome sprintV g r fx
  · exact handleCheckout_outcome sprintV g r fx
  · exact handleCreateDepositSession_outcome g r fx
  · exact handleGetDepositSession_outcome sprintV g r fx
  · exact handleDepositSessionCheckout_outcome sprintV g r fx
  · exact handleGetDepositPlans_outcome sprintV g r fx
  · exact handleGetDefaultDepositPlan_outcome sprintV g r fx
  · exact handleGetDepositPlan_outcome sprintV g r fx
  · exact handleGetOrderStatus_outcome sprintV g r fx

theorem status_valid (resp : BackendResp) (h : resp.statusCode.val ≥ 400) :
    100 ≤ resp.statusCode.val ∧ resp.statusCode.val ≤ 999 := by
  have := resp.statusCode.isLt
  omega

theorem outcome_backend_error (g : Gateway) (fx out : Fx) (hfx : fx.Unwritten)
    (h : FacadeOutcome g fx out) (q : OutReq) (resp : BackendResp)
    (hcalls : out.calls = fx.calls ++ [q])
    (hq : g.client q = DoResult.response resp)
    (hs : resp.statusCode.val ≥ 400) :
    out.w.status = some resp.statusCode.val ∧
    ∃ e, out.w.body =
      fx.w.body ++ [Chunk.envelope { data := JVal.null, error := some e }] := by
  cases h with
  | rejected e hcode =>
    rw [sendResponse_eq _ 400 _ _ hfx (by decide) (by decide)] at hcalls
    simp at hcalls
  | aborted q' err hq' => simp [Fx.nilPanic] at hcalls
  | unreached q' err hq' =>
    rw [sendResponse_eq _ 502 _ _ (call_unwritten fx q' hfx) (by decide)
      (by decide)] at hcalls
    simp [Fx.call] at hcalls
    subst hcalls
    rw [hq] at hq'
    cases hq'
  | backendError q' resp' e hq' hs' =>
    obtain ⟨v1, v2⟩ := status_valid resp' hs'
    rw [sendResponse_eq _ _ _ _ (call_unwritten fx q' hfx) v1 v2] at hcalls ⊢
    simp [Fx.call] at hcalls
    subst hcalls
    rw [hq] at hq'
    cases hq'
    exact ⟨rfl, e, rfl⟩
  | success q' resp' data hq' hs' =>
    rw [sendResponse_eq _ 200 _ _ (call_unwritten fx q' hfx) (by decide)
      (by decide)] at hcalls
    simp [Fx.call] at hcalls
    subst hcalls
    rw [hq] at hq'
    cases hq'
    exact absurd hs hs'

theorem outcome_transport_error (g : Gateway) (fx out : Fx) (hfx : fx.Unwritten)
    (h : FacadeOutcome g fx out) (q : OutReq) (err : String)
    (hcalls : out.calls = fx.calls ++ [q])
    (hq : g.client q = DoResult.transportError err) :
    out.w.status = some 502 ∧
    ∃ e, out.w.body =
        fx.w.body ++ [Chunk.envelope { data := JVal.null, error := some e }] ∧
      e.code = "BACKEND_ERROR" := by
  cases h with
  | rejected e hcode =>
    rw [sendResponse_eq _ 400 _ _ hfx (by decide) (by decide)] at hcalls
    simp at hcalls
  | aborted q' err hq' => simp [Fx.nilPanic] at hcalls
  | unreached q' err hq' =>
    rw [sendResponse_eq _ 502 _ _ (call_unwritten fx q' hfx) (by decide)
      (by decide)]
    exact ⟨rfl, connectError, rfl, rfl⟩
  | backendError q' resp' e hq' hs' =>
    obtain ⟨v1, v2⟩ := status_valid resp' hs'
    rw [sendResponse_eq _ _ _ _ (call_unwritten fx q' hfx) v1 v2] at hcalls
    simp [Fx.call] at hcalls
    subst hcalls
    rw [hq] at hq'
    cases hq'
  | success q' resp' data hq' hs' =>
    rw [sendResponse_eq _ 200 _ _ (call_unwritten fx q' hfx) (by decide)
      (by decide)] at hcalls
    simp [Fx.call] at hcalls
    subst hcalls
    rw [hq] at hq'
    cases hq'

theorem outcome_no_call (g : Gateway) (fx out : Fx) (hfx : fx.Unwritten)
    (h : FacadeOutcome g fx out) (hcalls : out.calls = fx.calls) :
    (out.panicked = true ∧ out.w = fx.w) ∨
    (out.w.status = some 400 ∧
      ∃ e, out.w.body =
          fx.w.body ++ [Chunk.envelope { data := JVal.null, error := some e }] ∧
        e.code = "VALIDATION_ERROR") := by
  cases h with
  | rejected e hcode =>
    rw [sendResponse_eq _ 400 _ _ hfx (by decide) (by decide)]
    exact Or.inr ⟨rfl, e, rfl, hcode⟩
  | aborted q' err hq' => exact Or.inl ⟨rfl, rfl⟩
  | unreached q' err hq' =>
    rw [sendResponse_eq _ 502 _ _ (call_unwritten fx q' hfx) (by decide)
      (by decide)] at hcalls
    simp [Fx.call] at hcalls
  | backendError q' resp' e hq' hs' =>
    obtain ⟨v1, v2⟩ := status_valid resp' hs'
    rw [sendResponse_eq _ _ _ _ (call_unwritten fx q' hfx) v1 v2] at hcalls
    simp [Fx.call] at hcalls
  | success q' resp' data hq' hs' =>
    rw [sendResponse_eq _ 200 _ _ (call_unwritten fx q' hfx) (by decide)
      (by decide)] at hcalls
    simp [Fx.call] at hcalls

theorem outcome_error_iff (g : Gateway) (fx out : Fx) (hfx : fx.Unwritten)
    (h : FacadeOutcome g fx out) :
    (out.panicked = true ∧ out.w = fx.w) ∨
    ∃ st env, out.w.status = some st ∧
      out.w.body = fx.w.body ++ [Chunk.envelope env] ∧
      (env.error ≠ none ↔ st ≥ 400) := by
  cases h with
  | rejected e hcode =>
    rw [sendResponse_eq _ 400 _ _ hfx (by decide) (by decide)]
    exact Or.inr ⟨400, _, rfl, rfl, by simp⟩
  | aborted q' err hq' => exact Or.inl ⟨rfl, rfl⟩
  | unreached q' err hq' =>
    rw [sendResponse_eq _ 502 _ _ (call_unwritten fx q' hfx) (by decide)
      (by decide)]
    exact Or.inr ⟨502, _, rfl, rfl, by simp⟩
  | backendError q' resp' e hq' hs' =>
    obtain ⟨v1, v2⟩ := status_valid resp' hs'
    rw [sendResponse_eq _ _ _ _ (call_unwritten fx q' hfx) v1 v2]
    exact Or.inr ⟨_, _, rfl, rfl, by simp [hs']⟩
  | success q' resp' data hq' hs' =>
    rw [sendResponse_eq _ 200 _ _ (call_unwritten fx q' hfx) (by decide)
      (by decide)]
    exact Or.inr ⟨200, _, rfl, rfl, by simp⟩

/-! ### Backend error codes -/

/-- C10 (the code at the failing input): when the backend answers a cart
fetch with 404 and the JSON body {"code":"CART_NOT_FOUND","message":"no
such cart"}, handleGetCart writes the error code BACKEND_ERROR; for the
same backend answer handleAddCartItem and handleCreateDepositSession write
the backend's code CART_NOT_FOUND. -/
theorem handleGetCart_drops_backend_code :
    (handleGetCart sampleSprintV (sampleGateway "" (replyWith 404 cartNotFound))
        getCartSample Fx.fresh).w.body =
      [Chunk.envelope
        { data := JVal.null,
          error := some { code := "BACKEND_ERROR", message := "no such cart" } }] ∧
    (handleAddCartItem sampleSprintV
        (sampleGateway "" (replyWith 404 cartNotFound))
        addCartItemSample Fx.fresh).w.body =
      [Chunk.envelope
        { data := JVal.null,
          error := some { code := "CART_NOT_FOUND", message := "no such cart" } }] ∧
    (handleCreateDepositSession (sampleGateway "" (replyWith 404 cartNotFound))
        createSessionSample Fx.fresh).w.body =
      [Chunk.envelope
        { data := JVal.null,
          error := some { code := "CART_NOT_FOUND", message := "no such cart" } }] :=
  ⟨rfl, rfl, rfl⟩

/-! ### Header maps -/

theorem values_put (k k' : String) (vs : List String) (m : MultiMap) :
    MultiMap.values k' (MultiMap.put k vs m) =
      if k = k' then vs else MultiMap.values k' m := by
  induction m with
  | nil => simp [MultiMap.put, MultiMap.values]
  | cons e rest ih =>
    obtain ⟨k0, v0⟩ := e
    by_cases h0 : k0 = k
    · subst h0
      by_cases h1 : k0 = k' <;> simp [MultiMap.put, MultiMap.values, h1]
    · by_cases h1 : k = k'
      · subst h1
        simp [MultiMap.put, MultiMap.values, h0, ih]
      · by_cases h2 : k0 = k'
        · subst h2
          simp [MultiMap.put, MultiMap.values, h0, h1]
        · simp [MultiMap.put, MultiMap.values, h0, h1, h2, ih]

theorem header_get_set (h : Header) (key value key' : String) :
    (h.Set key value).Get key' =
      if CanonicalMIMEHeaderKey key = CanonicalMIMEHeaderKey key' then value
      else h.Get key' := by
  unfold Header.Get Header.Set MultiMap.Get
  rw [values_put]
  split_ifs <;> rfl

/-! ### Generic proxy: transport errors -/

theorem httpError_eq (fx : Fx) (msg : String) (code : Nat) (hfx : fx.Unwritten)
    (h1 : 100 ≤ code) (h2 : code ≤ 999) :
    httpError fx msg code =
      { w := { header :=
                 ((fx.w.header.Del "Content-Length").Set "Content-Type"
                   "text/plain; charset=utf-8").Set "X-Content-Type-Options"
                   "nosniff",
               status := some code,
               body := fx.w.body ++ [Chunk.text (msg ++ "\n")] },
        calls := fx.calls, logs := fx.logs, panicked := false } := by
  obtain ⟨hs, hp⟩ := hfx
  have h1' : ¬ code < 100 := by omega
  have h2' : ¬ code > 999 := by omega
  simp [httpError, Fx.delHeader, Fx.setHeader, Fx.WriteHeader, Fx.Write, hp, hs,
    h1', h2']

theorem proxyToBackend_transport_eq (g : Gateway) (r : Request)
    (targetURL : String) (fx : Fx) (err : String)
    (hcall : g.client (proxyRequest r targetURL) = DoResult.transportError err) :
    proxyToBackend g r targetURL fx =
      httpError (fx.call (proxyRequest r targetURL))
        ("Error forwarding request: " ++ err) 502 := by
  have hreq : ({ method := r.method, url := targetURL,
                 header := r.header.foldl copyRequestHeader [],
                 body := OutBody.stream r.body } : OutReq) =
      proxyRequest r targetURL := rfl
  unfold proxyToBackend
  simp only [hreq, hcall]

/-- C11 (counterexample): when the client times out on /rest/foo, the
generic proxy answers 502 with the plain-text body "Error forwarding
request: context deadline exceeded" and Content-Type text/plain, not with
a JSON envelope. -/
theorem proxyToBackend_timeout_plain_text :
    (proxyHandler sampleSprintV (sampleGateway "" timesOut)
        (sampleRequest "GET" "/rest/foo" "" [] noBody) Fx.fresh).w.status =
      some 502 ∧
    (proxyHandler sampleSprintV (sampleGateway "" timesOut)
        (sampleRequest "GET" "/rest/foo" "" [] noBody) Fx.fresh).w.body =
      [Chunk.text "Error forwarding request: context deadline exceeded\n"] ∧
    (proxyHandler sampleSprintV (sampleGateway "" timesOut)
        (sampleRequest "GET" "/rest/foo" "" [] noBody) Fx.fresh).w.header.Get
        "Content-Type" = "text/plain; charset=utf-8" :=
  ⟨rfl, rfl, by decide⟩

/-- C11 (amended): when the outbound call of proxyToBackend fails with a
transport error, the gateway has handed exactly that one request to the
client and answers with status 502, Content-Type text/plain and the
plain-text body "Error forwarding request: " followed by the error text
and a newline. -/
theorem proxyToBackend_transport_error (g : Gateway) (r : Request)
    (targetURL : String) (fx : Fx) (err : String) (hfx : fx.Unwritten)
    (hcall : g.client (proxyRequest r targetURL) = DoResult.transportError err) :
    (proxyToBackend g r targetURL fx).w.status = some 502 ∧
    (proxyToBackend g r targetURL fx).w.body =
      fx.w.body ++ [Chunk.text ("Error forwarding request: " ++ err ++ "\n")] ∧
    (proxyToBackend g r targetURL fx).w.header.Get "Content-Type" =
      "text/plain; charset=utf-8" ∧
    (proxyToBackend g r targetURL fx).calls =
      fx.calls ++ [proxyRequest r targetURL] ∧
    (proxyToBackend g r targetURL fx).panicked = false := by
  rw [proxyToBackend_transport_eq g r targetURL fx err hcall,
    httpError_eq _ _ 502 (call_unwritten fx _ hfx) (by decide) (by decide)]
  refine ⟨rfl, rfl, ?_, rfl, rfl⟩
  rw [header_get_set, if_neg (by decide), header_get_set, if_pos rfl]


/-- Witness for C11 (amended): a timeout on /rest/foo gives 502. -/
theorem proxyToBackend_transport_error_witness :
    (proxyToBackend (sampleGateway "" timesOut)
        (sampleRequest "GET" "/rest/foo" "" [] noBody) "http://pg/foo"
        Fx.fresh).w.status = some 502 :=
  (proxyToBackend_transport_error (sampleGateway "" timesOut)
    (sampleRequest "GET" "/rest/foo" "" [] noBody) "http://pg/foo" Fx.fresh
    "context deadline exceeded" fresh_unwritten rfl).1

/-! ### Query strings -/

/-- C12 (the code at the failing input): GET /api/gw/v1/products?limit=5
falls through the façade switch and is proxied to
http://be/api/v1/products, without the query string, while the sibling
rule for GET /api/products?limit=5 proxies to http://be/products?limit=5. -/
theorem facade_fallthrough_drops_query :
    (proxyHandler sampleSprintV (sampleGateway "" (replyWith 200 noBody))
        (sampleRequest "GET" "/api/gw/v1/products" "limit=5" [("limit", ["5"])]
          noBody) Fx.fresh).calls.map (fun q => q.url) =
      ["http://be/api/v1/products"] ∧
    (proxyHandler sampleSprintV (sampleGateway "" (replyWith 200 noBody))
        (sampleRequest "GET" "/api/products" "limit=5" [("limit", ["5"])]
          noBody) Fx.fresh).calls.map (fun q => q.url) =
      ["http://be/products?limit=5"] := by
  decide

/-! ### Missing path identifiers -/

/-- C15 (the code at the failing inputs): GET /api/gw/v1/orders/ and
GET /api/gw/v1/deposit-sessions/, which carry no identifier, are not
answered 400: the handlers call the backend at /api/v1/orders/v1 and
/api/v1/deposit-sessions/v1 and answer 200. -/
theorem missing_id_reaches_backend :
    (frontendAPIHandler sampleSprintV (sampleGateway "" (replyWith 200 noBody))
        (sampleRequest "GET" "/api/gw/v1/orders/" "" [] noBody)
        Fx.fresh).calls.map (fun q => q.url) = ["http://be/api/v1/orders/v1"] ∧
    (frontendAPIHandler sampleSprintV (sampleGateway "" (replyWith 200 noBody))
        (sampleRequest "GET" "/api/gw/v1/orders/" "" [] noBody)
        Fx.fresh).w.status = some 200 ∧
    (frontendAPIHandler sampleSprintV (sampleGateway "" (replyWith 200 noBody))
        (sampleRequest "GET" "/api/gw/v1/deposit-sessions/" "" [] noBody)
        Fx.fresh).calls.map (fun q => q.url) =
      ["http://be/api/v1/deposit-sessions/v1"] ∧
    (frontendAPIHandler sampleSprintV (sampleGateway "" (replyWith 200 noBody))
        (sampleRequest "GET" "/api/gw/v1/deposit-sessions/" "" [] noBody)
        Fx.fresh).w.status = some 200 := by
  decide

/-- Under the façade prefix the split path always has at least four parts,
so the length guard of the path-parameterized handlers never fires. -/
theorem facade_path_guard_never_fires (t : String) :
    ¬ (Split ("/api/gw/v1/" ++ t) '/').length < 4 := by
  have h := (facade_path_part3 t).2
  omega

/-! ### Cart item update -/

theorem assertString_snd_false (v : JVal) (h : ∀ s, v ≠ JVal.str s) :
    (assertString v).2 = false := by
  cases hx : v <;> simp [assertString]
  exact h _ hx

theorem handleUpdateCartItem_reject_eq (sprintV : JVal → String) (g : Gateway)
    (r : Request) (fx : Fx)
    (hbad : ∀ es, r.body.json = some (JVal.obj es) →
      (∀ c, GoMap.index (some es) "cartId" ≠ JVal.str c) ∨
      (∀ l, GoMap.index (some es) "lineId" ≠ JVal.str l)) :
    ∃ e, handleUpdateCartItem sprintV g r fx =
        sendResponse fx 400 JVal.null (some e) ∧
      e.code = "VALIDATION_ERROR" := by
  unfold handleUpdateCartItem
  cases hj : r.body.json with
  | none =>
    simp only [decodeMap, hj]
    exact ⟨_, rfl, rfl⟩
  | some v =>
    cases v with
    | obj es =>
      simp only [decodeMap, hj]
      rcases hbad es hj with hc | hl
      · rw [assertString_snd_false _ hc]
        exact ⟨_, rfl, rfl⟩
      · rw [assertString_snd_false _ hl]
        cases (assertString (GoMap.index (some es) "cartId")).2
        · exact ⟨_, rfl, rfl⟩
        · exact ⟨_, rfl, rfl⟩
    | null =>
      simp only [decodeMap, hj]
      exact ⟨_, rfl, rfl⟩
    | bool b =>
      simp only [decodeMap, hj]
      exact ⟨_, rfl, rfl⟩
    | num t =>
      simp only [decodeMap, hj]
      exact ⟨_, rfl, rfl⟩
    | str t =>
      simp only [decodeMap, hj]
      exact ⟨_, rfl, rfl⟩
    | arr xs =>
      simp only [decodeMap, hj]
      exact ⟨_, rfl, rfl⟩

theorem handleUpdateCartItem_forward_calls (sprintV : JVal → String)
    (g : Gateway) (r : Request) (fx : Fx) (es : Entries) (c l : String)
    (hfx : fx.Unwritten)
    (hbody : r.body.json = some (JVal.obj es))
    (hc : GoMap.index (some es) "cartId" = JVal.str c)
    (hl : GoMap.index (some es) "lineId" = JVal.str l)
    (hreq : ∀ err, g.client (updateItemRequest g es) ≠ DoResult.noRequest err) :
    (handleUpdateCartItem sprintV g r fx).calls =
      fx.calls ++ [updateItemRequest g es] := by
  have hq : ({ method := "PUT", url := g.backendAPIURL ++ "/api/v1/cart/items",
               header := Header.Set [] "Content-Type" "application/json",
               body := OutBody.json (GoMap.toJSON (some es)) } : OutReq) =
      updateItemRequest g es := rfl
  have hu := call_unwritten fx (updateItemRequest g es) hfx
  unfold handleUpdateCartItem
  simp only [decodeMap, hbody, hc, hl, assertString_str, Bool.not_true,
    Bool.false_eq_true, if_false, hq]
  cases hcl : g.client (updateItemRequest g es) with
  | noRequest err => exact absurd hcl (hreq err)
  | transportError err =>
    simp only []
    rw [sendResponse_eq _ 502 _ _ hu (by decide) (by decide)]
    rfl
  | response resp =>
    simp only []
    by_cases hs : resp.statusCode.val ≥ 400
    · obtain ⟨v1, v2⟩ := status_valid resp hs
      rw [if_pos hs, sendResponse_eq _ _ _ _ hu v1 v2]
      rfl
    · rw [if_neg hs, sendResponse_eq _ 200 _ _ hu (by decide) (by decide)]
      rfl

/-- C14 (counterexample): a PUT /api/gw/v1/cart/items whose body has
cartId, lineId and the source "bogus" fails validateCartItemRequest, yet
handleUpdateCartItem forwards it to the backend and answers 200. -/
theorem handleUpdateCartItem_forwards_bogus_source :
    (validateCartItemRequest
        (some [("cartId", JVal.str "c1"), ("lineId", JVal.str "l1"),
               ("source", JVal.str "bogus")])).isSome = true ∧
    (frontendAPIHandler sampleSprintV (sampleGateway "" (replyWith 200 noBody))
        bogusSourceUpdate Fx.fresh).calls.map (fun q => (q.method, q.url)) =
      [("PUT", "http://be/api/v1/cart/items")] ∧
    (frontendAPIHandler sampleSprintV (sampleGateway "" (replyWith 200 noBody))
        bogusSourceUpdate Fx.fresh).w.status = some 200 := by
  decide

/-- C14 (amended): a PUT /api/gw/v1/cart/items whose body does not decode
as a JSON object, or has no string cartId, or has no string lineId, is
answered 400 with error code VALIDATION_ERROR and is not forwarded; the
source, externalId and variantId fields are not examined: a body with a
string cartId and a string lineId is forwarded to the backend whatever
else it holds. -/
theorem handleUpdateCartItem_validation (sprintV : JVal → String)
    (g : Gateway) (r : Request) (fx : Fx) (hfx : fx.Unwritten) :
    ((∀ es, r.body.json = some (JVal.obj es) →
        (∀ c, GoMap.index (some es) "cartId" ≠ JVal.str c) ∨
        (∀ l, GoMap.index (some es) "lineId" ≠ JVal.str l)) →
      (handleUpdateCartItem sprintV g r fx).w.status = some 400 ∧
      (handleUpdateCartItem sprintV g r fx).calls = fx.calls ∧
      ∃ e, (handleUpdateCartItem sprintV g r fx).w.body =
          fx.w.body ++ [Chunk.envelope { data := JVal.null, error := some e }] ∧
        e.code = "VALIDATION_ERROR") ∧
    (∀ es c l, r.body.json = some (JVal.obj es) →
      GoMap.index (some es) "cartId" = JVal.str c →
      GoMap.index (some es) "lineId" = JVal.str l →
      (∀ err, g.client (updateItemRequest g es) ≠ DoResult.noRequest err) →
      (handleUpdateCartItem sprintV g r fx).calls =
        fx.calls ++ [updateItemRequest g es]) := by
  constructor
  · intro hbad
    obtain ⟨e, hE, hcode⟩ := handleUpdateCartItem_reject_eq sprintV g r fx hbad
    rw [hE, sendResponse_eq fx 400 _ _ hfx (by decide) (by decide)]
    exact ⟨rfl, rfl, e, rfl, hcode⟩
  · intro es c l hbody hc hl hreq
    exact handleUpdateCartItem_forward_calls sprintV g r fx es c l hfx hbody hc
      hl hreq

/-- Witness for C14 (amended): an update without lineId is rejected, and
the update with source "bogus" is forwarded. -/
theorem handleUpdateCartItem_validation_witness :
    (handleUpdateCartItem sampleSprintV (sampleGateway "" (replyWith 200 noBody))
        (sampleRequest "PUT" "/api/gw/v1/cart/items" "" []
          (jsonBody "\x7b\"cartId\":\"c1\"\x7d"
            (JVal.obj [("cartId", JVal.str "c1")])))
        Fx.fresh).w.status = some 400 ∧
    (handleUpdateCartItem sampleSprintV (sampleGateway "" (replyWith 200 noBody))
        bogusSourceUpdate Fx.fresh).calls =
      Fx.fresh.calls ++
        [updateItemRequest (sampleGateway "" (replyWith 200 noBody))
          [("cartId", JVal.str "c1"), ("lineId", JVal.str "l1"),
           ("source", JVal.str "bogus")]] :=
  ⟨((handleUpdateCartItem_validation sampleSprintV
      (sampleGateway "" (replyWith 200 noBody))
      (sampleRequest "PUT" "/api/gw/v1/cart/items" "" []
        (jsonBody "\x7b\"cartId\":\"c1\"\x7d"
          (JVal.obj [("cartId", JVal.str "c1")])))
      Fx.fresh fresh_unwritten).1
      (by
        intro es h
        cases h
        exact Or.inr (fun l hl => by
          simp [GoMap.index, Entries.get] at hl))).1,
   (handleUpdateCartItem_validation sampleSprintV
      (sampleGateway "" (replyWith 200 noBody)) bogusSourceUpdate Fx.fresh
      fresh_unwritten).2 _ "c1" "l1" rfl rfl rfl
      (fun err h => by cases h)⟩

/-! ### Façade dispatch -/

theorem frontendAPIHandler_eq_table (sprintV : JVal → String) (g : Gateway)
    (r : Request) (fx : Fx) :
    frontendAPIHandler sprintV g r fx = dispatchByTable sprintV g r fx := by
  unfold frontendAPIHandler dispatchByTable facadeRoute facadeTable
  simp only [List.find?, Route.applies, Option.all_some, Option.all_none,
    Bool.and_true]
  generalize HasPrefix r.path "/api/gw/v1/cart/items" = a1
  generalize HasPrefix r.path "/api/gw/v1/cart" = a2
  generalize HasPrefix r.path "/api/gw/v1/cart/checkout" = a3
  generalize HasPrefix r.path "/api/gw/v1/deposit-sessions/create-from-cart" = a4
  generalize HasPrefix r.path "/api/gw/v1/deposit-sessions/" = a5
  generalize Contains r.path "/checkout" = a6
  generalize HasPrefix r.path "/api/gw/v1/deposit-plans/default" = a7
  generalize HasPrefix r.path "/api/gw/v1/deposit-plans/" = a8
  generalize HasPrefix r.path "/api/gw/v1/deposit-plans" = a9
  generalize HasPrefix r.path "/api/gw/v1/orders/" = a10
  generalize (r.method == "POST") = m1
  generalize (r.method == "PUT") = m2
  generalize (r.method == "DELETE") = m3
  generalize (r.method == "GET") = m4
  cases a1
  · simp only [Bool.false_and]
    generalize (a2 && m4) = c2
    generalize (a3 && m1) = c3
    generalize (a4 && m1) = c4
    generalize (a5 && a6 && m1) = c5
    generalize (a5 && m4) = c6
    generalize (a7 && m4) = c7
    generalize (a8 && m4) = c8
    generalize (a9 && m4) = c9
    generalize (a10 && m4) = c10
    cases c2
    swap
    · rfl
    cases c3
    swap
    · rfl
    cases c4
    swap
    · rfl
    cases c5
    swap
    · rfl
    cases c6
    swap
    · rfl
    cases c7
    swap
    · rfl
    cases c8
    swap
    · rfl
    cases c9
    swap
    · rfl
    cases c10 <;> rfl
  · cases m1 <;> cases m2 <;> cases m3 <;> rfl

theorem facadeRoute_eq_chain (method path : String) :
    facadeRoute method path =
      if HasPrefix path "/api/gw/v1/cart/items" = true then
        if (method == "POST") = true then some Facade.addCartItem
        else if (method == "PUT") = true then some Facade.updateCartItem
        else if (method == "DELETE") = true then some Facade.removeCartItem
        else none
      else if (HasPrefix path "/api/gw/v1/cart" && method == "GET") = true then
        some Facade.getCart
      else if (HasPrefix path "/api/gw/v1/cart/checkout" && method == "POST") = true
      then some Facade.checkout
      else if (HasPrefix path "/api/gw/v1/deposit-sessions/create-from-cart"
          && method == "POST") = true then
        some Facade.createDepositSession
      else if (HasPrefix path "/api/gw/v1/deposit-sessions/"
          && Contains path "/checkout" && method == "POST") = true then
        some Facade.depositSessionCheckout
      else if (HasPrefix path "/api/gw/v1/deposit-sessions/" && method == "GET") = true
      then some Facade.getDepositSession
      else if (HasPrefix path "/api/gw/v1/deposit-plans/default"
          && method == "GET") = true then
        some Facade.getDefaultDepositPlan
      else if (HasPrefix path "/api/gw/v1/deposit-plans/" && method == "GET") = true
      then some Facade.getDepositPlan
      else if (HasPrefix path "/api/gw/v1/deposit-plans" && method == "GET") = true
      then some Facade.getDepositPlans
      else if (HasPrefix path "/api/gw/v1/orders/" && method == "GET") = true then
        some Facade.getOrderStatus
      else none := by
  unfold facadeRoute facadeTable
  simp only [List.find?, Route.applies, Option.all_some, Option.all_none,
    Bool.and_true]
  generalize HasPrefix path "/api/gw/v1/cart/items" = a1
  generalize (HasPrefix path "/api/gw/v1/cart" && method == "GET") = c2
  generalize (HasPrefix path "/api/gw/v1/cart/checkout" && method == "POST") = c3
  generalize (HasPrefix path "/api/gw/v1/deposit-sessions/create-from-cart"
    && method == "POST") = c4
  generalize (HasPrefix path "/api/gw/v1/deposit-sessions/"
    && Contains path "/checkout" && method == "POST") = c5
  generalize (HasPrefix path "/api/gw/v1/deposit-sessions/" && method == "GET") = c6
  generalize (HasPrefix path "/api/gw/v1/deposit-plans/default"
    && method == "GET") = c7
  generalize (HasPrefix path "/api/gw/v1/deposit-plans/" && method == "GET") = c8
  generalize (HasPrefix path "/api/gw/v1/deposit-plans" && method == "GET") = c9
  generalize (HasPrefix path "/api/gw/v1/orders/" && method == "GET") = c10
  generalize (method == "POST") = m1
  generalize (method == "PUT") = m2
  generalize (method == "DELETE") = m3
  cases a1
  · simp only [Bool.false_and]
    cases c2
    swap
    · rfl
    cases c3
    swap
    · rfl
    cases c4
    swap
    · rfl
    cases c5
    swap
    · rfl
    cases c6
    swap
    · rfl
    cases c7
    swap
    · rfl
    cases c8
    swap
    · rfl
    cases c9
    swap
    · rfl
    cases c10 <;> rfl
  · cases m1 <;> cases m2 <;> cases m3 <;> rfl

theorem containsChars_append_self (sub a : List Char) :
    containsChars sub (a ++ sub) = true := by
  induction a with
  | nil =>
    cases sub with
    | nil => rfl
    | cons c cs =>
      simp only [List.nil_append, containsChars, Bool.or_eq_true]
      exact Or.inl (List.isPrefixOf_iff_prefix.mpr (List.prefix_refl _))
  | cons x xs ih =>
    show (sub.isPrefixOf (x :: (xs ++ sub)) || containsChars sub (xs ++ sub)) = true
    rw [ih, Bool.or_true]

theorem contains_append_self (a sub : String) : Contains (a ++ sub) sub = true := by
  unfold Contains
  rw [String.data_append]
  exact containsChars_append_self sub.data a.data

theorem facadeRoute_orders (id : String) :
    facadeRoute "GET" ("/api/gw/v1/orders/" ++ id) = some Facade.getOrderStatus := by
  rw [facadeRoute_eq_chain]
  have h10 : HasPrefix ("/api/gw/v1/orders/" ++ id) "/api/gw/v1/orders/" = true :=
    hasPrefix_append _ _
  simp [HasPrefix, List.isPrefixOf] at h10 ⊢

theorem facadeRoute_get_session (id : String) :
    facadeRoute "GET" ("/api/gw/v1/deposit-sessions/" ++ id) =
      some Facade.getDepositSession := by
  rw [facadeRoute_eq_chain]
  simp [HasPrefix, List.isPrefixOf]

theorem facadeRoute_get_plan (id : String)
    (hd : HasPrefix ("/api/gw/v1/deposit-plans/" ++ id)
      "/api/gw/v1/deposit-plans/default" = false) :
    facadeRoute "GET" ("/api/gw/v1/deposit-plans/" ++ id) =
      some Facade.getDepositPlan := by
  rw [facadeRoute_eq_chain, hd]
  simp [HasPrefix, List.isPrefixOf]

theorem facadeRoute_session_checkout (id : String)
    (hc : HasPrefix ("/api/gw/v1/deposit-sessions/" ++ id ++ "/checkout")
      "/api/gw/v1/deposit-sessions/create-from-cart" = false) :
    facadeRoute "POST" ("/api/gw/v1/deposit-sessions/" ++ id ++ "/checkout") =
      some Facade.depositSessionCheckout := by
  rw [facadeRoute_eq_chain, hc, contains_append_self]
  simp [HasPrefix, List.isPrefixOf]

/-- C13 (counterexample): GET /api/gw/v1/cart/checkout and
GET /api/gw/v1/cartoon are not proxied generically: both begin with
/api/gw/v1/cart, so the cart fetch transformer handles them and the
backend is called at /api/v1/cart/c1, not at /api/v1/cart/checkout or
/api/v1/cartoon. -/
theorem get_under_cart_prefix_reaches_cart_handler :
    (frontendAPIHandler sampleSprintV (sampleGateway "" (replyWith 200 noBody))
        (sampleRequest "GET" "/api/gw/v1/cart/checkout" "cartId=c1"
          [("cartId", ["c1"])] noBody)
        Fx.fresh).calls.map (fun q => q.url) = ["http://be/api/v1/cart/c1"] ∧
    (frontendAPIHandler sampleSprintV (sampleGateway "" (replyWith 200 noBody))
        (sampleRequest "GET" "/api/gw/v1/cartoon" "cartId=c1"
          [("cartId", ["c1"])] noBody)
        Fx.fresh).calls.map (fun q => q.url) = ["http://be/api/v1/cart/c1"] ∧
    (proxyToBackend (sampleGateway "" (replyWith 200 noBody))
        (sampleRequest "GET" "/api/gw/v1/cartoon" "cartId=c1"
          [("cartId", ["c1"])] noBody)
        "http://be/api/v1/cartoon"
        Fx.fresh).calls.map (fun q => q.url) = ["http://be/api/v1/cartoon"] := by
  decide

/-- C13 (amended): frontendAPIHandler dispatches through the façade table,
whose rows are tried in order and match on method and path prefix; a
request that matches no row (POST /api/gw/v1/cart, GET
/api/gw/v1/cart/items) invokes no transformer and is proxied to
backendAPIURL + "/api/v1" + the path without its leading "/api/gw/v1"; a
GET whose path merely begins with /api/gw/v1/cart (GET
/api/gw/v1/cart/checkout, GET /api/gw/v1/cartoon) goes to the cart fetch
transformer; and each listed endpoint goes to its own transformer. -/
theorem frontendAPIHandler_dispatch (sprintV : JVal → String) (g : Gateway)
    (r : Request) (fx : Fx) :
    frontendAPIHandler sprintV g r fx = dispatchByTable sprintV g r fx ∧
    (∀ rest, r.path = "/api/gw/v1" ++ rest →
      facadeRoute r.method r.path = none →
      frontendAPIHandler sprintV g r fx =
        proxyToBackend g r (g.backendAPIURL ++ "/api/v1" ++ rest) fx) ∧
    (∀ f, facadeRoute r.method r.path = some f →
      frontendAPIHandler sprintV g r fx = f.run sprintV g r fx) ∧
    facadeRoute "POST" "/api/gw/v1/cart" = none ∧
    facadeRoute "GET" "/api/gw/v1/cart/items" = none ∧
    facadeRoute "GET" "/api/gw/v1/cart/checkout" = some Facade.getCart ∧
    facadeRoute "GET" "/api/gw/v1/cartoon" = some Facade.getCart ∧
    facadeRoute "GET" "/api/gw/v1/cart" = some Facade.getCart ∧
    facadeRoute "POST" "/api/gw/v1/cart/items" = some Facade.addCartItem ∧
    facadeRoute "PUT" "/api/gw/v1/cart/items" = some Facade.updateCartItem ∧
    facadeRoute "DELETE" "/api/gw/v1/cart/items" = some Facade.removeCartItem ∧
    facadeRoute "POST" "/api/gw/v1/cart/checkout" = some Facade.checkout ∧
    facadeRoute "POST" "/api/gw/v1/deposit-sessions/create-from-cart" =
      some Facade.createDepositSession ∧
    facadeRoute "GET" "/api/gw/v1/deposit-plans" = some Facade.getDepositPlans ∧
    facadeRoute "GET" "/api/gw/v1/deposit-plans/default" =
      some Facade.getDefaultDepositPlan ∧
    (∀ id, HasPrefix ("/api/gw/v1/deposit-plans/" ++ id)
        "/api/gw/v1/deposit-plans/default" = false →
      facadeRoute "GET" ("/api/gw/v1/deposit-plans/" ++ id) =
        some Facade.getDepositPlan) ∧
    (∀ id, HasPrefix ("/api/gw/v1/deposit-sessions/" ++ id ++ "/checkout")
        "/api/gw/v1/deposit-sessions/create-from-cart" = false →
      facadeRoute "POST" ("/api/gw/v1/deposit-sessions/" ++ id ++ "/checkout") =
        some Facade.depositSessionCheckout) ∧
    (∀ id, facadeRoute "GET" ("/api/gw/v1/deposit-sessions/" ++ id) =
      some Facade.getDepositSession) ∧
    (∀ id, facadeRoute "GET" ("/api/gw/v1/orders/" ++ id) =
      some Facade.getOrderStatus) := by
  have heq := frontendAPIHandler_eq_table sprintV g r fx
  refine ⟨heq, ?_, ?_, rfl, rfl, rfl, rfl, rfl, rfl, rfl, rfl, rfl, rfl, rfl, rfl,
    facadeRoute_get_plan, facadeRoute_session_checkout, facadeRoute_get_session,
    facadeRoute_orders⟩
  · intro rest hp hnone
    rw [heq]
    unfold dispatchByTable
    simp only [hnone]
    rw [hp, trimPrefix_append]
  · intro f hf
    rw [heq]
    unfold dispatchByTable
    simp only [hf]

/-- Witness for C13 (amended): POST /api/gw/v1/cart matches no row and is
proxied to http://be/api/v1/cart. -/
theorem frontendAPIHandler_dispatch_witness :
    frontendAPIHandler sampleSprintV (sampleGateway "" unreachable)
        (sampleRequest "POST" "/api/gw/v1/cart" "" [] noBody) Fx.fresh =
      proxyToBackend (sampleGateway "" unreachable)
        (sampleRequest "POST" "/api/gw/v1/cart" "" [] noBody)
        ("http://be" ++ "/api/v1" ++ "/cart") Fx.fresh :=
  (frontendAPIHandler_dispatch sampleSprintV (sampleGateway "" unreachable)
    (sampleRequest "POST" "/api/gw/v1/cart" "" [] noBody) Fx.fresh).2.1
    "/cart" rfl rfl

/-! ### Generic proxy: response pass-through -/

theorem header_add_values (h : Header) (key value k' : String) :
    MultiMap.values k' (h.Add key value) =
      if CanonicalMIMEHeaderKey key = k' then MultiMap.values k' h ++ [value]
      else MultiMap.values k' h := by
  unfold Header.Add
  simp only [values_put]
  split_ifs with hk
  · rw [hk]
  · rfl

theorem addHeader_fold (k : String) (vs : List String) (fx : Fx)
    (hp : fx.panicked = false) :
    fx.HeaderEdit (vs.foldl (fun acc value => acc.addHeader k value) fx) ∧
    ∀ k', MultiMap.values k'
        (vs.foldl (fun acc value => acc.addHeader k value) fx).w.header =
      if CanonicalMIMEHeaderKey k = k' then MultiMap.values k' fx.w.header ++ vs
      else MultiMap.values k' fx.w.header := by
  induction vs generalizing fx with
  | nil =>
    refine ⟨⟨rfl, rfl, rfl, rfl, rfl⟩, fun k' => ?_⟩
    simp
  | cons v rest ih =>
    have hp1 : (fx.addHeader k v).panicked = false := by
      simp [Fx.addHeader, hp]
    obtain ⟨⟨e1, e2, e3, e4, e5⟩, hv⟩ := ih (fx.addHeader k v) hp1
    have hw : (fx.addHeader k v).w.header = fx.w.header.Add k v := by
      simp [Fx.addHeader, hp]
    have hs : (fx.addHeader k v).w.status = fx.w.status := by
      simp [Fx.addHeader, hp]
    have hb : (fx.addHeader k v).w.body = fx.w.body := by
      simp [Fx.addHeader, hp]
    have hc : (fx.addHeader k v).calls = fx.calls := by
      simp [Fx.addHeader, hp]
    have hl : (fx.addHeader k v).logs = fx.logs := by
      simp [Fx.addHeader, hp]
    simp only [List.foldl_cons]
    refine ⟨⟨by rw [e1, hp1, hp], by rw [e2, hs], by rw [e3, hb], by rw [e4, hc],
      by rw [e5, hl]⟩, fun k' => ?_⟩
    rw [hv k', hw, header_add_values]
    split_ifs <;> simp

theorem values_of_not_mem (k : String) (m : MultiMap)
    (h : k ∉ m.map Prod.fst) : MultiMap.values k m = [] := by
  induction m with
  | nil => rfl
  | cons e rest ih =>
    obtain ⟨k0, v0⟩ := e
    simp only [List.map_cons, List.mem_cons, not_or] at h
    have hne : ¬ k0 = k := fun hk => h.1 hk.symm
    simp only [MultiMap.values, hne, if_false]
    exact ih h.2

theorem copyResponseHeader_fold (hs : Header) (fx : Fx)
    (hp : fx.panicked = false) (hwf : hs.WellFormed) :
    fx.HeaderEdit (hs.foldl copyResponseHeader fx) ∧
    ∀ k, MultiMap.values k (hs.foldl copyResponseHeader fx).w.header =
      MultiMap.values k fx.w.header ++
        (if corsHeaders k = true then [] else MultiMap.values k hs) := by
  induction hs generalizing fx with
  | nil =>
    refine ⟨⟨rfl, rfl, rfl, rfl, rfl⟩, fun k => ?_⟩
    simp [MultiMap.values]
  | cons e rest ih =>
    obtain ⟨k0, v0⟩ := e
    obtain ⟨hnd, hcan⟩ := hwf
    simp only [List.map_cons, List.nodup_cons] at hnd
    have hwf' : Header.WellFormed rest :=
      ⟨hnd.2, fun e he => hcan e (List.mem_cons_of_mem _ he)⟩
    have hk0 : CanonicalMIMEHeaderKey k0 = k0 := hcan (k0, v0) (List.mem_cons_self _ _)
    simp only [List.foldl_cons]
    by_cases hc : corsHeaders k0 = true
    · have h1 : copyResponseHeader fx (k0, v0) = fx := by
        simp [copyResponseHeader, hc]
      rw [h1]
      obtain ⟨he, hv⟩ := ih fx hp hwf'
      refine ⟨he, fun k => ?_⟩
      rw [hv k]
      by_cases hck : corsHeaders k = true
      · simp [hck]
      · have hne : ¬ k0 = k := fun h => hck (h ▸ hc)
        simp [hck, MultiMap.values, hne]
    · have h1 : copyResponseHeader fx (k0, v0) =
          v0.foldl (fun acc value => acc.addHeader k0 value) fx := by
        simp [copyResponseHeader, hc]
      obtain ⟨⟨a1, a2, a3, a4, a5⟩, hva⟩ := addHeader_fold k0 v0 fx hp
      rw [h1]
      obtain ⟨⟨b1, b2, b3, b4, b5⟩, hv⟩ :=
        ih (v0.foldl (fun acc value => acc.addHeader k0 value) fx)
          (by rw [a1, hp]) hwf'
      refine ⟨⟨by rw [b1, a1], by rw [b2, a2], by rw [b3, a3], by rw [b4, a4],
        by rw [b5, a5]⟩, fun k => ?_⟩
      rw [hv k, hva k, hk0]
      by_cases hkk : k0 = k
      · subst hkk
        have hnil : MultiMap.values k0 rest = [] := values_of_not_mem k0 rest hnd.1
        simp [hc, MultiMap.values, hnil]
      · simp [hkk, MultiMap.values]

theorem writeHeader_write_eq (fx : Fx) (code : Nat) (c : Chunk)
    (hfx : fx.Unwritten) (h1 : 100 ≤ code) (h2 : code ≤ 999) :
    (fx.WriteHeader code).Write c =
      { w := { header := fx.w.header, status := some code,
               body := fx.w.body ++ [c] },
        calls := fx.calls, logs := fx.logs, panicked := false } := by
  obtain ⟨hs, hp⟩ := hfx
  have h1' : ¬ code < 100 := by omega
  have h2' : ¬ code > 999 := by omega
  simp [Fx.WriteHeader, Fx.Write, hp, hs, h1', h2']

theorem proxyToBackend_response (g : Gateway) (r : Request) (url : String)
    (fx : Fx) (resp : BackendResp) (hfx : fx.Unwritten)
    (hcall : g.client (proxyRequest r url) = DoResult.response resp)
    (hcode : 100 ≤ resp.statusCode.val) (hwf : resp.header.WellFormed) :
    (proxyToBackend g r url fx).w.status = some resp.statusCode.val ∧
    (proxyToBackend g r url fx).w.body = fx.w.body ++ [Chunk.stream resp.body] ∧
    (proxyToBackend g r url fx).calls = fx.calls ++ [proxyRequest r url] ∧
    (proxyToBackend g r url fx).panicked = false ∧
    ∀ k, MultiMap.values k (proxyToBackend g r url fx).w.header =
      MultiMap.values k fx.w.header ++
        (if corsHeaders k = true then [] else MultiMap.values k resp.header) := by
  have hreq : ({ method := r.method, url := url,
                 header := r.header.foldl copyRequestHeader [],
                 body := OutBody.stream r.body } : OutReq) =
      proxyRequest r url := rfl
  have hu := call_unwritten fx (proxyRequest r url) hfx
  obtain ⟨⟨e1, e2, e3, e4, e5⟩, hv⟩ :=
    copyResponseHeader_fold resp.header (fx.call (proxyRequest r url)) hu.2 hwf
  have hu2 : (resp.header.foldl copyResponseHeader
      (fx.call (proxyRequest r url))).Unwritten :=
    ⟨by rw [e2]; exact hu.1, by rw [e1]; exact hu.2⟩
  have hlt : resp.statusCode.val ≤ 999 := by
    have := resp.statusCode.isLt
    omega
  unfold proxyToBackend
  simp only [hreq, hcall]
  rw [writeHeader_write_eq _ _ _ hu2 hcode hlt]
  refine ⟨rfl, ?_, ?_, rfl, fun k => ?_⟩
  · show (resp.header.foldl copyResponseHeader
      (fx.call (proxyRequest r url))).w.body ++ _ = _
    rw [e3]
    rfl
  · show (resp.header.foldl copyResponseHeader
      (fx.call (proxyRequest r url))).calls = _
    rw [e4]
    rfl
  · exact hv k

theorem handler_eq_of_not_options (sprintV : JVal → String) (g : Gateway)
    (r : Request) (hm : r.method ≠ "OPTIONS") :
    handler sprintV g r Fx.fresh =
      loggingMiddleware g (authMiddleware g (proxyHandler sprintV g)) r
        corsPrepared := by
  have hb : (r.method == "OPTIONS") = false := beq_eq_false_iff_ne.mpr hm
  unfold handler corsMiddleware
  simp only [hb, Bool.false_eq_true, if_false]
  rfl

theorem authMiddleware_pass_eq (g : Gateway) (next : Handler) (r : Request)
    (fx : Fx)
    (hauth : g.apiKey = "" ∨ r.header.Get "X-API-Key" = g.apiKey ∨
      (r.header.Get "X-API-Key" = "" ∧ r.query.Get "api_key" = g.apiKey)) :
    authMiddleware g next r fx = next r fx := by
  unfold authMiddleware
  rcases hauth with hk | hh | ⟨he, hq⟩
  · simp [hk]
  · by_cases hk : g.apiKey = ""
    · simp [hk]
    · simp [hk, hh]
  · by_cases hk : g.apiKey = ""
    · simp [hk]
    · simp [hk, he, hq]

theorem corsPrepared_values (k : String) (hk : corsHeaders k = false) :
    MultiMap.values k corsPrepared.w.header = [] := by
  simp only [corsHeaders, Bool.or_eq_false_iff, beq_eq_false_iff_ne, ne_eq] at hk
  obtain ⟨⟨⟨⟨⟨h1, h2⟩, h3⟩, h4⟩, -⟩, -⟩ := hk
  have c1 : ¬ "Access-Control-Allow-Origin" = k := fun h => h1 h.symm
  have c2 : ¬ "Access-Control-Allow-Methods" = k := fun h => h2 h.symm
  have c3 : ¬ "Access-Control-Allow-Headers" = k := fun h => h3 h.symm
  have c4 : ¬ "Access-Control-Expose-Headers" = k := fun h => h4 h.symm
  simp [corsPrepared, preflightAnswer, MultiMap.values, c1, c2, c3, c4]

theorem chain_proxy_eq (sprintV : JVal → String) (g : Gateway) (r : Request)
    (resp : BackendResp) (hm : r.method ≠ "OPTIONS")
    (hauth : g.apiKey = "" ∨ r.header.Get "X-API-Key" = g.apiKey ∨
      (r.header.Get "X-API-Key" = "" ∧ r.query.Get "api_key" = g.apiKey))
    (hf : HasPrefix r.path "/api/gw/v1/" = false)
    (hcall : g.client (proxyRequest r (proxyURL g r)) = DoResult.response resp)
    (hcode : 100 ≤ resp.statusCode.val) (hwf : resp.header.WellFormed) :
    (handler sprintV g r Fx.fresh).w =
      (proxyToBackend g r (proxyURL g r) corsPrepared).w ∧
    (handler sprintV g r Fx.fresh).calls = [proxyRequest r (proxyURL g r)] := by
  have hcp : corsPrepared.Unwritten := ⟨rfl, rfl⟩
  obtain ⟨-, -, hcalls, hpan, -⟩ :=
    proxyToBackend_response g r (proxyURL g r) corsPrepared resp hcp hcall hcode hwf
  have hinner : authMiddleware g (proxyHandler sprintV g) r corsPrepared =
      proxyToBackend g r (proxyURL g r) corsPrepared := by
    rw [authMiddleware_pass_eq g _ r corsPrepared hauth,
      proxyHandler_eq sprintV g r corsPrepared hf]
    rfl
  rw [handler_eq_of_not_options sprintV g r hm]
  refine ⟨?_, ?_⟩
  · unfold loggingMiddleware
    simp only [hinner, hpan, Bool.false_eq_true, if_false]
  · unfold loggingMiddleware
    simp only [hinner, hpan, Bool.false_eq_true, if_false]
    exact hcalls

/-- C16: for a backend response with a valid status code (100 or above)
and a well-formed header map, received without transport error:
proxyToBackend writes the backend's status code and streams the backend's
body unchanged, adds to the response, under each header name outside the
CORS set, all the backend's values in order, and adds nothing under a name
in the CORS set; through the full chain (a request that is not OPTIONS,
passes authentication and is routed generically) the response carries for
each name outside the CORS set exactly the backend's values, and
Access-Control-Allow-Origin has exactly the single value "*". -/
theorem proxy_response_passthrough (g : Gateway) (r : Request)
    (resp : BackendResp) (hcode : 100 ≤ resp.statusCode.val)
    (hwf : resp.header.WellFormed) :
    (∀ url fx, fx.Unwritten →
      g.client (proxyRequest r url) = DoResult.response resp →
      (proxyToBackend g r url fx).w.status = some resp.statusCode.val ∧
      (proxyToBackend g r url fx).w.body =
        fx.w.body ++ [Chunk.stream resp.body] ∧
      (proxyToBackend g r url fx).panicked = false ∧
      (∀ k, corsHeaders k = false →
        MultiMap.values k (proxyToBackend g r url fx).w.header =
          MultiMap.values k fx.w.header ++ MultiMap.values k resp.header) ∧
      (∀ k, corsHeaders k = true →
        MultiMap.values k (proxyToBackend g r url fx).w.header =
          MultiMap.values k fx.w.header)) ∧
    (∀ sprintV, r.method ≠ "OPTIONS" →
      (g.apiKey = "" ∨ r.header.Get "X-API-Key" = g.apiKey ∨
        (r.header.Get "X-API-Key" = "" ∧ r.query.Get "api_key" = g.apiKey)) →
      HasPrefix r.path "/api/gw/v1/" = false →
      g.client (proxyRequest r (proxyURL g r)) = DoResult.response resp →
      (handler sprintV g r Fx.fresh).w.status = some resp.statusCode.val ∧
      (handler sprintV g r Fx.fresh).w.body = [Chunk.stream resp.body] ∧
      (∀ k, corsHeaders k = false →
        MultiMap.values k (handler sprintV g r Fx.fresh).w.header =
          MultiMap.values k resp.header) ∧
      (∀ k, corsHeaders k = true →
        MultiMap.values k (handler sprintV g r Fx.fresh).w.header =
          MultiMap.values k preflightAnswer.w.header) ∧
      MultiMap.values "Access-Control-Allow-Origin"
        (handler sprintV g r Fx.fresh).w.header = ["*"]) := by
  constructor
  · intro url fx hfx hcall
    obtain ⟨h1, h2, -, h4, h5⟩ :=
      proxyToBackend_response g r url fx resp hfx hcall hcode hwf
    refine ⟨h1, h2, h4, fun k hk => ?_, fun k hk => ?_⟩
    · rw [h5 k, hk]
      simp
    · rw [h5 k, hk]
      simp
  · intro sprintV hm hauth hf hcall
    have hcp : corsPrepared.Unwritten := ⟨rfl, rfl⟩
    obtain ⟨hw, -⟩ := chain_proxy_eq sprintV g r resp hm hauth hf hcall hcode hwf
    obtain ⟨h1, h2, -, -, h5⟩ :=
      proxyToBackend_response g r (proxyURL g r) corsPrepared resp hcp hcall hcode
        hwf
    rw [hw]
    refine ⟨h1, h2, fun k hk => ?_, fun k hk => ?_, ?_⟩
    · rw [h5 k, hk, corsPrepared_values k hk]
      simp
    · rw [h5 k, hk]
      simp
      rfl
    · rw [h5 "Access-Control-Allow-Origin", if_pos (by decide)]
      rfl

/-- Witness for C16: a 201 backend answer to GET /rest/foo that carries two
cookies and its own Access-Control-Allow-Origin comes back with status 201,
both cookies in order and the single origin value "*". -/
theorem proxy_response_passthrough_witness :
    (handler sampleSprintV
        (sampleGateway "" (fun _ => DoResult.response corsLadenResponse))
        (sampleRequest "GET" "/rest/foo" "" [] noBody) Fx.fresh).w.status =
      some 201 ∧
    MultiMap.values "Set-Cookie"
        (handler sampleSprintV
          (sampleGateway "" (fun _ => DoResult.response corsLadenResponse))
          (sampleRequest "GET" "/rest/foo" "" [] noBody) Fx.fresh).w.header =
      ["a=1", "b=2"] ∧
    MultiMap.values "Access-Control-Allow-Origin"
        (handler sampleSprintV
          (sampleGateway "" (fun _ => DoResult.response corsLadenResponse))
          (sampleRequest "GET" "/rest/foo" "" [] noBody) Fx.fresh).w.header =
      ["*"] :=
  have h := (proxy_response_passthrough
    (sampleGateway "" (fun _ => DoResult.response corsLadenResponse))
    (sampleRequest "GET" "/rest/foo" "" [] noBody) corsLadenResponse
    (by decide) ⟨by decide, by decide⟩).2 sampleSprintV (by decide)
    (Or.inl rfl) (by decide) rfl
  ⟨h.1, h.2.2.1 "Set-Cookie" (by decide), h.2.2.2.2⟩

/-! ### Input-side contract of the façade handlers -/

theorem afterCall_of_match (g : Gateway) (fx : Fx) (q : OutReq)
    (E : BackendResp → ErrorInfo) (D : BackendResp → JVal) :
    FacadeAfterCall g fx q
      (match g.client q with
       | DoResult.noRequest _ => fx.nilPanic
       | DoResult.transportError _ =>
         sendResponse (fx.call q) 502 JVal.null (some connectError)
       | DoResult.response resp =>
         if resp.statusCode.val ≥ 400 then
           sendResponse (fx.call q) resp.statusCode.val JVal.null (some (E resp))
         else sendResponse (fx.call q) 200 (D resp) none) := by
  unfold FacadeAfterCall
  cases g.client q with
  | noRequest err => rfl
  | transportError err => rfl
  | response resp =>
    dsimp only
    split_ifs
    · exact ⟨_, rfl⟩
    · exact ⟨_, rfl⟩

theorem afterCall_of_match_gen (g : Gateway) (fx : Fx) (q : OutReq)
    (E : BackendResp → ErrorInfo) (S : BackendResp → Fx)
    (hS : ∀ resp, ∃ data, S resp = sendResponse (fx.call q) 200 data none) :
    FacadeAfterCall g fx q
      (match g.client q with
       | DoResult.noRequest _ => fx.nilPanic
       | DoResult.transportError _ =>
         sendResponse (fx.call q) 502 JVal.null (some connectError)
       | DoResult.response resp =>
         if resp.statusCode.val ≥ 400 then
           sendResponse (fx.call q) resp.statusCode.val JVal.null (some (E resp))
         else S resp) := by
  unfold FacadeAfterCall
  cases g.client q with
  | noRequest err => rfl
  | transportError err => rfl
  | response resp =>
    dsimp only
    split_ifs
    · exact ⟨_, rfl⟩
    · exact hS resp

theorem getCart_step (sprintV : JVal → String) (g : Gateway) (r : Request)
    (fx : Fx) : FacadeStep sprintV g Facade.getCart r fx := by
  unfold FacadeStep
  by_cases hc : (r.query.Get "cartId" == "") = true
  · have hreq : Facade.request g Facade.getCart r = none := by
      simp only [Facade.request, hc, if_true]
    have hrun : Facade.run sprintV g Facade.getCart r fx =
        sendResponse fx 400 JVal.null
          (some { code := "VALIDATION_ERROR",
                  message := "cartId query parameter is required" }) := by
      simp only [Facade.run, handleGetCart, hc, if_true]
    rw [hreq, hrun]
    exact ⟨_, rfl, rfl⟩
  · have hreq : Facade.request g Facade.getCart r =
        some (plainGet (g.backendAPIURL ++ "/api/v1/cart/" ++ r.query.Get "cartId")) := by
      simp only [Facade.request, hc, Bool.false_eq_true, if_false]
    rw [hreq]
    simp only [Facade.run, handleGetCart, hc, Bool.false_eq_true, if_false]
    exact afterCall_of_match g fx _ _ _

theorem updateCartItem_step (sprintV : JVal → String) (g : Gateway) (r : Request)
    (fx : Fx) : FacadeStep sprintV g Facade.updateCartItem r fx := by
  unfold FacadeStep
  cases hd : decodeMap r.body with
  | none =>
    simp only [Facade.request, Facade.run, handleUpdateCartItem, hd]
    exact ⟨_, rfl, rfl⟩
  | some body =>
    by_cases h1 : (assertString (body.index "cartId")).2 = true
    swap
    · simp only [Facade.request, Facade.run, handleUpdateCartItem, hd, h1, Bool.not_true, Bool.not_false, Bool.false_eq_true, eq_self, if_false, if_true]
      exact ⟨_, rfl, rfl⟩
    by_cases h2 : (assertString (body.index "lineId")).2 = true
    swap
    · simp only [Facade.request, Facade.run, handleUpdateCartItem, hd, h1, h2, Bool.not_true, Bool.not_false, Bool.false_eq_true, eq_self, if_false, if_true]
      exact ⟨_, rfl, rfl⟩
    simp only [Facade.request, Facade.run, handleUpdateCartItem, hd, h1, h2, Bool.not_true, Bool.not_false, Bool.false_eq_true, eq_self, if_false, if_true]
    exact afterCall_of_match g fx _ _ _

theorem removeCartItem_step (sprintV : JVal → String) (g : Gateway) (r : Request)
    (fx : Fx) : FacadeStep sprintV g Facade.removeCartItem r fx := by
  unfold FacadeStep
  cases hd : decodeMap r.body with
  | none =>
    simp only [Facade.request, Facade.run, handleRemoveCartItem, hd]
    exact ⟨_, rfl, rfl⟩
  | some body =>
    by_cases h1 : (assertString (body.index "cartId")).2 = true
    swap
    · simp only [Facade.request, Facade.run, handleRemoveCartItem, hd, h1, Bool.not_true, Bool.not_false, Bool.false_eq_true, eq_self, if_false, if_true]
      exact ⟨_, rfl, rfl⟩
    by_cases h2 : (assertString (body.index "lineId")).2 = true
    swap
    · simp only [Facade.request, Facade.run, handleRemoveCartItem, hd, h1, h2, Bool.not_true, Bool.not_false, Bool.false_eq_true, eq_self, if_false, if_true]
      exact ⟨_, rfl, rfl⟩
    simp only [Facade.request, Facade.run, handleRemoveCartItem, hd, h1, h2, Bool.not_true, Bool.not_false, Bool.false_eq_true, eq_self, if_false, if_true]
    exact afterCall_of_match g fx _ _ _

theorem checkout_step (sprintV : JVal → String) (g : Gateway) (r : Request)
    (fx : Fx) : FacadeStep sprintV g Facade.checkout r fx := by
  unfold FacadeStep
  cases hd : decodeMap r.body with
  | none =>
    simp only [Facade.request, Facade.run, handleCheckout, hd]
    exact ⟨_, rfl, rfl⟩
  | some body =>
    by_cases h1 : (assertString (body.index "cartId")).2 = true
    swap
    · simp only [Facade.request, Facade.run, handleCheckout, hd, h1, Bool.not_true, Bool.not_false, Bool.false_eq_true, eq_self, if_false, if_true]
      exact ⟨_, rfl, rfl⟩
    simp only [Facade.request, Facade.run, handleCheckout, hd, h1, Bool.not_true, Bool.not_false, Bool.false_eq_true, eq_self, if_false, if_true]
    exact afterCall_of_match g fx _ _ _

theorem createDepositSession_step (sprintV : JVal → String) (g : Gateway) (r : Request)
    (fx : Fx) : FacadeStep sprintV g Facade.createDepositSession r fx := by
  unfold FacadeStep
  cases hd : decodeMap r.body with
  | none =>
    simp only [Facade.request, Facade.run, handleCreateDepositSession, hd]
    exact ⟨_, rfl, rfl⟩
  | some body =>
    by_cases h1 : (assertString (body.index "cartId")).2 = true
    swap
    · simp only [Facade.request, Facade.run, handleCreateDepositSession, hd, h1, Bool.not_true, Bool.not_false, Bool.false_eq_true, eq_self, if_false, if_true]
      exact ⟨_, rfl, rfl⟩
    simp only [Facade.request, Facade.run, handleCreateDepositSession, hd, h1, Bool.not_true, Bool.not_false, Bool.false_eq_true, eq_self, if_false, if_true]
    refine afterCall_of_match_gen g fx _ _ _ (fun resp => ?_)
    split_ifs
    · exact ⟨_, rfl⟩
    · exact ⟨_, rfl⟩

theorem addCartItem_step (sprintV : JVal → String) (g : Gateway) (r : Request)
    (fx : Fx) : FacadeStep sprintV g Facade.addCartItem r fx := by
  unfold FacadeStep
  cases hd : decodeMap r.body with
  | none =>
    simp only [Facade.request, Facade.run, handleAddCartItem, hd]
    exact ⟨_, rfl, rfl⟩
  | some body =>
    cases hv : validateCartItemRequest body with
    | some err =>
      simp only [Facade.request, Facade.run, handleAddCartItem, hd, hv]
      exact ⟨err, rfl, validate_error_code _ _ hv⟩
    | none =>
      simp only [Facade.request, Facade.run, handleAddCartItem, hd, hv]
      exact afterCall_of_match g fx _ _ _

theorem getDepositSession_step (sprintV : JVal → String) (g : Gateway) (r : Request)
    (fx : Fx) : FacadeStep sprintV g Facade.getDepositSession r fx := by
  unfold FacadeStep
  by_cases hl : (Split r.path '/').length < 4
  · simp only [Facade.request, Facade.run, handleGetDepositSession, hl, if_true]
    exact ⟨_, rfl, rfl⟩
  · simp only [Facade.request, Facade.run, handleGetDepositSession, hl, if_false]
    exact afterCall_of_match g fx _ _ _

theorem depositSessionCheckout_step (sprintV : JVal → String) (g : Gateway) (r : Request)
    (fx : Fx) : FacadeStep sprintV g Facade.depositSessionCheckout r fx := by
  unfold FacadeStep
  by_cases hl : (Split r.path '/').length < 4
  · simp only [Facade.request, Facade.run, handleDepositSessionCheckout, hl, if_true]
    exact ⟨_, rfl, rfl⟩
  · simp only [Facade.request, Facade.run, handleDepositSessionCheckout, hl, if_false]
    exact afterCall_of_match g fx _ _ _

theorem getDepositPlan_step (sprintV : JVal → String) (g : Gateway) (r : Request)
    (fx : Fx) : FacadeStep sprintV g Facade.getDepositPlan r fx := by
  unfold FacadeStep
  by_cases hl : (Split r.path '/').length < 4
  · simp only [Facade.request, Facade.run, handleGetDepositPlan, hl, if_true]
    exact ⟨_, rfl, rfl⟩
  · simp only [Facade.request, Facade.run, handleGetDepositPlan, hl, if_false]
    exact afterCall_of_match g fx _ _ _

theorem getOrderStatus_step (sprintV : JVal → String) (g : Gateway) (r : Request)
    (fx : Fx) : FacadeStep sprintV g Facade.getOrderStatus r fx := by
  unfold FacadeStep
  by_cases hl : (Split r.path '/').length < 4
  · simp only [Facade.request, Facade.run, handleGetOrderStatus, hl, if_true]
    exact ⟨_, rfl, rfl⟩
  · simp only [Facade.request, Facade.run, handleGetOrderStatus, hl, if_false]
    exact afterCall_of_match g fx _ _ _

theorem getDepositPlans_step (sprintV : JVal → String) (g : Gateway) (r : Request)
    (fx : Fx) : FacadeStep sprintV g Facade.getDepositPlans r fx := by
  unfold FacadeStep
  simp only [Facade.request, Facade.run, handleGetDepositPlans]
  exact afterCall_of_match g fx _ _ _

theorem getDefaultDepositPlan_step (sprintV : JVal → String) (g : Gateway) (r : Request)
    (fx : Fx) : FacadeStep sprintV g Facade.getDefaultDepositPlan r fx := by
  unfold FacadeStep
  simp only [Facade.request, Facade.run, handleGetDefaultDepositPlan]
  exact afterCall_of_match g fx _ _ _

theorem facade_step (sprintV : JVal → String) (g : Gateway) (f : Facade)
    (r : Request) (fx : Fx) : FacadeStep sprintV g f r fx := by
  cases f
  · exact addCartItem_step sprintV g r fx
  · exact getCart_step sprintV g r fx
  · exact updateCartItem_step sprintV g r fx
  · exact removeCartItem_step sprintV g r fx
  · exact checkout_step sprintV g r fx
  · exact createDepositSession_step sprintV g r fx
  · exact getDepositSession_step sprintV g r fx
  · exact depositSessionCheckout_step sprintV g r fx
  · exact getDepositPlans_step sprintV g r fx
  · exact getDefaultDepositPlan_step sprintV g r fx
  · exact getDepositPlan_step sprintV g r fx
  · exact getOrderStatus_step sprintV g r fx

theorem step_backend_error (sprintV : JVal → String) (g : Gateway) (f : Facade)
    (r : Request) (fx : Fx) (hfx : fx.Unwritten) (q : OutReq)
    (resp : BackendResp) (hreq : Facade.request g f r = some q)
    (hq : g.client q = DoResult.response resp)
    (hs : resp.statusCode.val ≥ 400) :
    (f.run sprintV g r fx).w.status = some resp.statusCode.val ∧
    (f.run sprintV g r fx).calls = fx.calls ++ [q] ∧
    ∃ e, (f.run sprintV g r fx).w.body =
      fx.w.body ++ [Chunk.envelope { data := JVal.null, error := some e }] := by
  have hstep := facade_step sprintV g f r fx
  unfold FacadeStep at hstep
  rw [hreq] at hstep
  dsimp only at hstep
  unfold FacadeAfterCall at hstep
  rw [hq] at hstep
  dsimp only at hstep
  rw [if_pos hs] at hstep
  obtain ⟨e, he⟩ := hstep
  obtain ⟨v1, v2⟩ := status_valid resp hs
  rw [he, sendResponse_eq _ _ _ _ (call_unwritten fx q hfx) v1 v2]
  exact ⟨rfl, rfl, e, rfl⟩

theorem step_transport_error (sprintV : JVal → String) (g : Gateway)
    (f : Facade) (r : Request) (fx : Fx) (hfx : fx.Unwritten) (q : OutReq)
    (err : String) (hreq : Facade.request g f r = some q)
    (hq : g.client q = DoResult.transportError err) :
    (f.run sprintV g r fx).w.status = some 502 ∧
    (f.run sprintV g r fx).calls = fx.calls ++ [q] ∧
    ∃ e, (f.run sprintV g r fx).w.body =
        fx.w.body ++ [Chunk.envelope { data := JVal.null, error := some e }] ∧
      e.code = "BACKEND_ERROR" := by
  have hstep := facade_step sprintV g f r fx
  unfold FacadeStep at hstep
  rw [hreq] at hstep
  dsimp only at hstep
  unfold FacadeAfterCall at hstep
  rw [hq] at hstep
  dsimp only at hstep
  rw [hstep, sendResponse_eq _ 502 _ _ (call_unwritten fx q hfx) (by decide)
    (by decide)]
  exact ⟨rfl, rfl, connectError, rfl, rfl⟩

theorem step_rejected (sprintV : JVal → String) (g : Gateway) (f : Facade)
    (r : Request) (fx : Fx) (hfx : fx.Unwritten)
    (hreq : Facade.request g f r = none) :
    (f.run sprintV g r fx).w.status = some 400 ∧
    (f.run sprintV g r fx).calls = fx.calls ∧
    ∃ e, (f.run sprintV g r fx).w.body =
        fx.w.body ++ [Chunk.envelope { data := JVal.null, error := some e }] ∧
      e.code = "VALIDATION_ERROR" := by
  have hstep := facade_step sprintV g f r fx
  unfold FacadeStep at hstep
  rw [hreq] at hstep
  dsimp only at hstep
  obtain ⟨e, he, hcode⟩ := hstep
  rw [he, sendResponse_eq _ 400 _ _ hfx (by decide) (by decide)]
  exact ⟨rfl, rfl, e, rfl, hcode⟩

/-- C9: for each of the twelve façade handlers, run on a fresh response,
with `Facade.request` telling whether the input passes the handler's local
validation and which backend request it then builds: when the input passes
and the backend replies to that request with a status s >= 400 (whatever
the body), the handler has made that one call and the response has status
s and an envelope with null data and a non-null error; when the input
passes and the call fails at transport level, the response has status 502
and an envelope with null data and error code BACKEND_ERROR; when the
input fails local validation, no call is made and the response is 400 with
code VALIDATION_ERROR; and whenever a response is written it is one
envelope whose error is non-null exactly when the status is >= 400. The
same holds read off the handler's own record of calls. -/
theorem facade_error_contract (sprintV : JVal → String) (g : Gateway)
    (f : Facade) (r : Request) (fx : Fx) (hfx : fx.Unwritten) :
    (∀ q resp, Facade.request g f r = some q →
      g.client q = DoResult.response resp → resp.statusCode.val ≥ 400 →
      (f.run sprintV g r fx).w.status = some resp.statusCode.val ∧
      (f.run sprintV g r fx).calls = fx.calls ++ [q] ∧
      ∃ e, (f.run sprintV g r fx).w.body =
        fx.w.body ++ [Chunk.envelope { data := JVal.null, error := some e }]) ∧
    (∀ q err, Facade.request g f r = some q →
      g.client q = DoResult.transportError err →
      (f.run sprintV g r fx).w.status = some 502 ∧
      (f.run sprintV g r fx).calls = fx.calls ++ [q] ∧
      ∃ e, (f.run sprintV g r fx).w.body =
          fx.w.body ++ [Chunk.envelope { data := JVal.null, error := some e }] ∧
        e.code = "BACKEND_ERROR") ∧
    (Facade.request g f r = none →
      (f.run sprintV g r fx).w.status = some 400 ∧
      (f.run sprintV g r fx).calls = fx.calls ∧
      ∃ e, (f.run sprintV g r fx).w.body =
          fx.w.body ++ [Chunk.envelope { data := JVal.null, error := some e }] ∧
        e.code = "VALIDATION_ERROR") ∧
    (∀ q resp, (f.run sprintV g r fx).calls = fx.calls ++ [q] →
      g.client q = DoResult.response resp → resp.statusCode.val ≥ 400 →
      (f.run sprintV g r fx).w.status = some resp.statusCode.val ∧
      ∃ e, (f.run sprintV g r fx).w.body =
        fx.w.body ++ [Chunk.envelope { data := JVal.null, error := some e }]) ∧
    (∀ q err, (f.run sprintV g r fx).calls = fx.calls ++ [q] →
      g.client q = DoResult.transportError err →
      (f.run sprintV g r fx).w.status = some 502 ∧
      ∃ e, (f.run sprintV g r fx).w.body =
          fx.w.body ++ [Chunk.envelope { data := JVal.null, error := some e }] ∧
        e.code = "BACKEND_ERROR") ∧
    ((f.run sprintV g r fx).calls = fx.calls →
      ((f.run sprintV g r fx).panicked = true ∧
        (f.run sprintV g r fx).w = fx.w) ∨
      ((f.run sprintV g r fx).w.status = some 400 ∧
        ∃ e, (f.run sprintV g r fx).w.body =
            fx.w.body ++ [Chunk.envelope { data := JVal.null, error := some e }] ∧
          e.code = "VALIDATION_ERROR")) ∧
    (((f.run sprintV g r fx).panicked = true ∧
        (f.run sprintV g r fx).w = fx.w) ∨
      ∃ st env, (f.run sprintV g r fx).w.status = some st ∧
        (f.run sprintV g r fx).w.body = fx.w.body ++ [Chunk.envelope env] ∧
        (env.error ≠ none ↔ st ≥ 400)) := by
  have h := facade_outcome sprintV g f r fx
  exact ⟨fun q resp hr hq hs => step_backend_error sprintV g f r fx hfx q resp hr hq hs,
    fun q err hr hq => step_transport_error sprintV g f r fx hfx q err hr hq,
    fun hr => step_rejected sprintV g f r fx hfx hr,
    fun q resp hc hq hs => outcome_backend_error g fx _ hfx h q resp hc hq hs,
    fun q err hc hq => outcome_transport_error g fx _ hfx h q err hc hq,
    fun hc => outcome_no_call g fx _ hfx h hc,
    outcome_error_iff g fx _ hfx h⟩

/-- Witness for C9: a cart fetch for cart c1 passes local validation, and
when the backend replies 404 with a body that is not JSON the answer is 404
with an error envelope; the plan list, which has no local validation, is
answered 502 when the backend cannot be reached. -/
theorem facade_error_contract_witness :
    ((Facade.run sampleSprintV
        (sampleGateway "" (replyWith 404 { raw := "not found", json := none }))
        Facade.getCart getCartSample Fx.fresh).w.status = some 404 ∧
      (Facade.run sampleSprintV
        (sampleGateway "" (replyWith 404 { raw := "not found", json := none }))
        Facade.getCart getCartSample Fx.fresh).calls =
        Fx.fresh.calls ++ [plainGet "http://be/api/v1/cart/c1"] ∧
      ∃ e, (Facade.run sampleSprintV
          (sampleGateway "" (replyWith 404 { raw := "not found", json := none }))
          Facade.getCart getCartSample Fx.fresh).w.body =
        Fx.fresh.w.body ++
          [Chunk.envelope { data := JVal.null, error := some e }]) ∧
    (Facade.run sampleSprintV (sampleGateway "" unreachable)
        Facade.getDepositPlans
        (sampleRequest "GET" "/api/gw/v1/deposit-plans" "" [] noBody)
        Fx.fresh).w.status = some 502 :=
  ⟨(facade_error_contract sampleSprintV
      (sampleGateway "" (replyWith 404 { raw := "not found", json := none }))
      Facade.getCart getCartSample Fx.fresh fresh_unwritten).1
      (plainGet "http://be/api/v1/cart/c1")
      { statusCode := 404, header := [],
        body := { raw := "not found", json := none } }
      rfl rfl (by decide),
   ((facade_error_contract sampleSprintV (sampleGateway "" unreachable)
      Facade.getDepositPlans
      (sampleRequest "GET" "/api/gw/v1/deposit-plans" "" [] noBody)
      Fx.fresh fresh_unwritten).2.1
      (plainGet "http://be/api/v1/deposit-plans") "timeout" rfl rfl).1⟩

end Gw
